import Mathlib

/-!
MaraBet AI service worker (`static/sw.js`) and database configuration
(`db-config.js`).

A shallow embedding of `static/sw.js`: the `fetch` listener with the two
retrieval strategies `cacheFirst` and `networkFirst`, the `install` and
`activate` listeners, and the `sync`, `periodicsync`, `push`,
`notificationclick` and `message` listeners.

* JavaScript strings are `String`; `s.startsWith(p)` is the initial-segment test
  on the character lists.
* The host platform (URL parser, network, JSON reader, Cache Storage failures)
  is not part of the repository: it is the record `Host`, over which every
  theorem quantifies. `cache.addAll` is all-or-nothing, as the Cache API has
  it: the responses are put only when every URL was fetched.
* Cache Storage is an ordered list of named stores (creation order), each a
  list of `request key ↦ snapshot` pairs; a request key is the method and the
  URL without its fragment, as the Cache API compares requests.
* Of `db-config.js` the methods `getSecret` and `getCredentials` of
  `DatabaseConfig` are embedded, in the namespace `DbConfig`; the object is
  passed explicitly, what AWS answers is an argument, and a call of
  `getCredentials` is two steps, before and after its `await`, so that calls
  can overlap.
* An `async` function is a function returning an `Outcome`: the settled
  promise (`Except.ok` = resolved, `Except.error` = rejected), the Cache
  Storage afterwards and the trace of the platform calls it made.
-/

namespace SW

/-! ## Data model -/

/-- JavaScript `s.startsWith(p)`. -/
def startsWith (s p : String) : Bool :=
  p.toList.isPrefixOf s.toList

/-- The fields of a `Request` that `sw.js` reads. -/
structure Request where
  url : String
  method : String
  destination : String
  mode : String
deriving DecidableEq, Repr

/-- A `Response`: what `new Response(body, init)` is given, or what the network
returned. -/
structure Response where
  body : String
  status : Nat
  statusText : String
  headers : List (String × String)
deriving DecidableEq, Repr

/-- Request key of the Cache API: method and normalised URL, the URL with its
query and without its fragment. -/
abbrev RequestKey := String × String

/-- A serialised URL without its fragment: what stands before the first `#`. -/
def withoutFragment (url : String) : String :=
  String.mk (url.toList.takeWhile (fun c => c != '#'))

/-- Key under which a request is looked up and stored: the Cache API compares
URLs with the fragment left out, so `/#top` and `/` have one key. -/
def requestKey (request : Request) : RequestKey :=
  (request.method, withoutFragment request.url)

/-- One named store: request key ↦ snapshot. The keys of a store are
normalised URLs: every put and every lookup goes through `requestKey`. -/
abbrev Cache := List (RequestKey × Response)

/-- The stores of the origin, in creation order. -/
abbrev CacheStorage := List (String × Cache)

/-- Lookup `cache.match(key)` in one store. -/
def cacheMatch (c : Cache) (k : RequestKey) : Option Response :=
  c.lookup k

/-- Lookup `caches.match(key)`: the first store, in creation order, that holds
the key answers. -/
def cachesMatch : CacheStorage → RequestKey → Option Response
  | [], _ => none
  | (_, c) :: rest, k =>
    match cacheMatch c k with
    | some r => some r
    | none => cachesMatch rest k

/-- The store of that name, if it exists. -/
def storeOf (cs : CacheStorage) (name : String) : Option Cache :=
  cs.lookup name

/-- State after `caches.open(name)`: the store is created empty, last in
creation order, when absent. -/
def cachesOpen (cs : CacheStorage) (name : String) : CacheStorage :=
  match storeOf cs name with
  | some _ => cs
  | none => cs ++ [(name, [])]

/-- State of one store after `cache.put(key, r)`: an existing snapshot of the
key is replaced. -/
def cachePut (c : Cache) (k : RequestKey) (r : Response) : Cache :=
  c.filter (fun e => e.1 != k) ++ [(k, r)]

/-- State after `cache.put(key, r)` on the store called `name`. -/
def storePut (cs : CacheStorage) (name : String) (k : RequestKey) (r : Response) :
    CacheStorage :=
  cs.map (fun s => if s.1 = name then (s.1, cachePut s.2 k r) else s)

/-- What `await response.json()` followed by reading `data.new_predictions`
gives, by cases of the body: `json()` rejects; the data is `null`, so that the
property read throws; the data has no such property; the property is the
number `n`, an integer; or it is another value `v`, with the outcome of `v > 0` and the text of
`String(v)`. -/
inductive JsonData where
  | syntaxError (reason : String)
  | nullData
  | absent
  | count (n : Int)
  | other (positive : Bool) (text : String)
deriving DecidableEq, Repr

/-- One entry of the `actions` of a notification. -/
structure NotificationAction where
  action : String
  title : String
  icon : String
deriving DecidableEq, Repr

/-- The `options` handed to `showNotification`; `data` is `dateOfArrival` and
`primaryKey`. -/
structure NotificationOptions where
  body : String
  icon : String
  badge : String
  vibrate : List Nat
  data : Option (Nat × Nat)
  actions : List NotificationAction
deriving DecidableEq, Repr

/-- The host platform as `sw.js` uses it. `fetch` is the outcome of the network
call (`Except.error e`: the call rejects with `e`); `openErr name = some e`
means `caches.open(name)` rejects with `e`; `putErr name k = some e` means
`cache.put` of key `k` on that store rejects with `e`; `json body` is what
`response.json()` makes of a body; `numberText n` is the text of `String(n)`
for an integer `n` of absolute value 2^53 or more, which JavaScript rounds to
17 significant digits and prints with an exponent from 10^21 on. -/
structure Host where
  pathname : String → String
  resolve : String → String
  fetch : Request → Except String Response
  openErr : String → Option String
  putErr : String → RequestKey → Option String
  json : String → JsonData
  numberText : Int → String

/-- The two retrieval strategies. -/
inductive Strategy where
  | cacheFirst
  | networkFirst
deriving DecidableEq, Repr

/-- Platform calls, in the order `sw.js` issues them. -/
inductive Effect where
  | fetch (request : Request)
  | cachesMatch (k : RequestKey)
  | cachesOpen (name : String)
  | cachePut (name : String) (k : RequestKey) (r : Response)
  | console (text : String) (arg : String)
  | respondWith (s : Strategy)
  | cacheAddAll (name : String) (urls : List String)
  | cachesKeys
  | cachesDelete (name : String)
  | skipWaiting
  | clientsClaim
  | showNotification (title : String) (options : NotificationOptions)
  | notificationClose
  | openWindow (url : String)
deriving DecidableEq, Repr

/-- Result of running an `async` function to completion. -/
structure Outcome where
  result : Except String Response
  caches : CacheStorage
  trace : List Effect

/-- Number of network calls in a trace. -/
def networkCalls (t : List Effect) : Nat :=
  t.countP (fun e => match e with | .fetch _ => true | _ => false)

/-! ## Constants of `sw.js` -/

def CACHE_NAME : String := "marabet-ai-v1.0.0"

def RUNTIME_CACHE : String := "marabet-runtime-v1.0.0"

def STATIC_ASSETS : List String :=
  ["/",
   "/static/css/responsive.css",
   "/static/js/responsive.js",
   "/static/manifest.json",
   "/static/images/logo.svg",
   "/static/images/icon-192x192.png",
   "/static/images/icon-512x512.png",
   "/offline.html"]

/-- Body of the placeholder image of `cacheFirst`. -/
def placeholderSvg : String :=
  "<svg xmlns=\"http://www.w3.org/2000/svg\" width=\"100\" height=\"100\"><rect width=\"100\" height=\"100\" fill=\"#f0f0f0\"/><text x=\"50\" y=\"50\" text-anchor=\"middle\" dy=\".3em\" fill=\"#999\">Sem imagem</text></svg>"

/-- Response `new Response(svg, { headers: { 'Content-Type': 'image/svg+xml' } })`. -/
def placeholderResponse : Response :=
  { body := placeholderSvg, status := 200, statusText := "",
    headers := [("Content-Type", "image/svg+xml")] }

/-- Response `new Response('Offline', { status: 503 })`. -/
def offlineResponse : Response :=
  { body := "Offline", status := 503, statusText := "", headers := [] }

/-- The last response of `networkFirst`. -/
def unavailableResponse : Response :=
  { body := "Offline - Sem conexão com internet", status := 503,
    statusText := "Service Unavailable",
    headers := [("Content-Type", "text/plain")] }

/-! ## The strategies -/

/-- The write-through `caches.open(RUNTIME_CACHE)` then `cache.put(request,
networkResponse.clone())`, reached when the status is 200 and the store opened.
The `put` is not awaited: its rejection reaches only the `unhandledrejection`
listener, which logs it. -/
def writeThrough (host : Host) (cs : CacheStorage) (request : Request)
    (networkResponse : Response) : CacheStorage × List Effect :=
  let opened := cachesOpen cs RUNTIME_CACHE
  match host.putErr RUNTIME_CACHE (requestKey request) with
  | none =>
    (storePut opened RUNTIME_CACHE (requestKey request) networkResponse,
      [.cachesOpen RUNTIME_CACHE,
       .cachePut RUNTIME_CACHE (requestKey request) networkResponse])
  | some reason =>
    (opened,
      [.cachesOpen RUNTIME_CACHE,
       .cachePut RUNTIME_CACHE (requestKey request) networkResponse,
       .console "[Service Worker] Promise rejeitada:" reason])

/-- The `catch (error)` block of `cacheFirst`. -/
def cacheFirstCatch (cs : CacheStorage) (request : Request) (error : String)
    (before : List Effect) : Outcome :=
  { result :=
      if request.destination = "image" then .ok placeholderResponse
      else .ok offlineResponse,
    caches := cs,
    trace := before ++ [.console "[Service Worker] Erro na rede:" error] }

/-- Function `cacheFirst(request)`. -/
def cacheFirst (host : Host) (cs : CacheStorage) (request : Request) : Outcome :=
  match cachesMatch cs (requestKey request) with
  | some cachedResponse =>
    { result := .ok cachedResponse, caches := cs,
      trace := [.cachesMatch (requestKey request),
                .console "[Service Worker] Servindo do cache:" request.url] }
  | none =>
    match host.fetch request with
    | .ok networkResponse =>
      if networkResponse.status = 200 then
        match host.openErr RUNTIME_CACHE with
        | none =>
          let w := writeThrough host cs request networkResponse
          { result := .ok networkResponse, caches := w.1,
            trace := [.cachesMatch (requestKey request), .fetch request] ++ w.2 }
        | some error =>
          cacheFirstCatch cs request error
            [.cachesMatch (requestKey request), .fetch request,
             .cachesOpen RUNTIME_CACHE]
      else
        { result := .ok networkResponse, caches := cs,
          trace := [.cachesMatch (requestKey request), .fetch request] }
    | .error error =>
      cacheFirstCatch cs request error
        [.cachesMatch (requestKey request), .fetch request]

/-- Key of `caches.match('/offline.html')`. -/
def offlineKey (host : Host) : RequestKey :=
  ("GET", withoutFragment (host.resolve "/offline.html"))

/-- The `catch (error)` block of `networkFirst`. -/
def networkFirstCatch (host : Host) (cs : CacheStorage) (request : Request)
    (before : List Effect) : Outcome :=
  let logged := before ++
    [.console "[Service Worker] Rede falhou, tentando cache:" request.url,
     .cachesMatch (requestKey request)]
  match cachesMatch cs (requestKey request) with
  | some cachedResponse =>
    { result := .ok cachedResponse, caches := cs, trace := logged }
  | none =>
    if request.mode = "navigate" then
      match cachesMatch cs (offlineKey host) with
      | some offlinePage =>
        { result := .ok offlinePage, caches := cs,
          trace := logged ++ [.cachesMatch (offlineKey host)] }
      | none =>
        { result := .ok unavailableResponse, caches := cs,
          trace := logged ++ [.cachesMatch (offlineKey host)] }
    else
      { result := .ok unavailableResponse, caches := cs, trace := logged }

/-- Function `networkFirst(request)`. -/
def networkFirst (host : Host) (cs : CacheStorage) (request : Request) : Outcome :=
  match host.fetch request with
  | .ok networkResponse =>
    if networkResponse.status = 200 then
      match host.openErr RUNTIME_CACHE with
      | none =>
        let w := writeThrough host cs request networkResponse
        { result := .ok networkResponse, caches := w.1,
          trace := [.fetch request] ++ w.2 }
      | some _ =>
        networkFirstCatch host cs request [.fetch request, .cachesOpen RUNTIME_CACHE]
    else
      { result := .ok networkResponse, caches := cs, trace := [.fetch request] }
  | .error _ =>
    networkFirstCatch host cs request [.fetch request]

/-! ## The `fetch` listener -/

/-- What handling one `fetch` event did: the strategies it ran and handed to
`event.respondWith`, in order, with the promise each settled to. -/
structure Handled where
  responded : List (Strategy × Except String Response)
  caches : CacheStorage
  trace : List Effect

/-- Call `event.respondWith(strategy(request))`. The argument is evaluated
first: the strategy runs to its first `await`, issuing its first platform call,
and `respondWith` then receives the promise. -/
def respondWith (s : Strategy) (o : Outcome) : Handled :=
  { responded := [(s, o.result)], caches := o.caches,
    trace :=
      match o.trace with
      | first :: rest => first :: .respondWith s :: rest
      | [] => [.respondWith s] }

/-- The `fetch` event listener. -/
def fetchListener (host : Host) (cs : CacheStorage) (request : Request) : Handled :=
  let pathname := host.pathname request.url
  if !(startsWith request.url "http") then
    { responded := [], caches := cs, trace := [] }
  else if startsWith pathname "/api/" then
    respondWith .networkFirst (networkFirst host cs request)
  else if startsWith pathname "/static/" || request.destination = "image" ||
      request.destination = "style" || request.destination = "script" then
    respondWith .cacheFirst (cacheFirst host cs request)
  else
    respondWith .networkFirst (networkFirst host cs request)

/-! ## Lifecycle: `install` and `activate` -/

/-- What handling an event other than `fetch` did: the promises handed to
`event.waitUntil`, settled, the stores afterwards and the platform calls. -/
structure Handling where
  waitUntil : List (Except String Unit)
  caches : CacheStorage
  trace : List Effect

/-- Result of running an `async` function without a value to completion. -/
structure Settled where
  result : Except String Unit
  caches : CacheStorage
  trace : List Effect

/-- The request the platform makes of a URL string: `new Request(url)`, or
`fetch(url, init)` with the method of `init`. -/
def urlRequest (host : Host) (url : String) (method : String) : Request :=
  { url := host.resolve url, method := method, destination := "", mode := "cors" }

/-- Property `response.ok`: the status is in the range 200 to 299. -/
def responseOk (r : Response) : Bool :=
  decide (200 ≤ r.status) && decide (r.status ≤ 299)

/-- First stage of `cache.addAll(urls)`: every URL is fetched; the call rejects
when a fetch rejects, or with a `TypeError` when a response is not ok or has
status 206. -/
def addAllResponses (host : Host) : List String → Except String (List (RequestKey × Response))
  | [] => .ok []
  | url :: rest =>
    match host.fetch (urlRequest host url "GET") with
    | .error e => .error e
    | .ok r =>
      if responseOk r && r.status != 206 then
        match addAllResponses host rest with
        | .ok entries => .ok ((requestKey (urlRequest host url "GET"), r) :: entries)
        | .error e => .error e
      else .error "TypeError"

/-- The puts of a batch, in order. -/
def putAll (cs : CacheStorage) (name : String) (entries : List (RequestKey × Response)) :
    CacheStorage :=
  entries.foldl (fun acc e => storePut acc name e.1 e.2) cs

/-- Method `cache.addAll(urls)` on the store called `name`: the responses are
put only when every one was fetched, no two URLs of the batch have one key
(the batch is refused with `InvalidStateError` otherwise) and every put is
accepted; otherwise the call rejects and the store is as before. -/
def cacheAddAll (host : Host) (cs : CacheStorage) (name : String) (urls : List String) :
    Except String CacheStorage :=
  match addAllResponses host urls with
  | .error e => .error e
  | .ok entries =>
    if (entries.map (fun e => e.1)).Nodup then
      match entries.findSome? (fun e => host.putErr name e.1) with
      | some e => .error e
      | none => .ok (putAll cs name entries)
    else .error "InvalidStateError"

/-- The calls `cache.addAll(urls)` makes. -/
def addAllTrace (host : Host) (name : String) (urls : List String) : List Effect :=
  .cacheAddAll name urls :: urls.map (fun url => .fetch (urlRequest host url "GET"))

/-- The `install` event listener. Its promise chain ends in `.catch`, whose
handler logs the error and returns. -/
def installListener (host : Host) (cs : CacheStorage) : Handling :=
  let start : List Effect :=
    [.console "[Service Worker] Instalando..." "", .cachesOpen CACHE_NAME]
  match host.openErr CACHE_NAME with
  | some error =>
    { waitUntil := [.ok ()], caches := cs,
      trace := start ++ [.console "[Service Worker] Erro na instalação:" error] }
  | none =>
    let opened := cachesOpen cs CACHE_NAME
    let adding := start ++
      .console "[Service Worker] Fazendo cache dos assets estáticos" "" ::
        addAllTrace host CACHE_NAME STATIC_ASSETS
    match cacheAddAll host opened CACHE_NAME STATIC_ASSETS with
    | .ok populated =>
      { waitUntil := [.ok ()], caches := populated,
        trace := adding ++
          [.console "[Service Worker] Instalação concluída" "", .skipWaiting] }
    | .error error =>
      { waitUntil := [.ok ()], caches := opened,
        trace := adding ++ [.console "[Service Worker] Erro na instalação:" error] }

/-- Names `caches.keys()` resolves with. -/
def cachesKeys (cs : CacheStorage) : List String :=
  cs.map (fun s => s.1)

/-- State after `caches.delete(name)`. -/
def cachesDelete (cs : CacheStorage) (name : String) : CacheStorage :=
  cs.filter (fun s => s.1 != name)

/-- The names the `activate` listener keeps out of its filter. -/
def staleNames (cs : CacheStorage) : List String :=
  (cachesKeys cs).filter (fun cacheName => cacheName != CACHE_NAME && cacheName != RUNTIME_CACHE)

/-- The `activate` event listener. -/
def activateListener (cs : CacheStorage) : Handling :=
  { waitUntil := [.ok ()],
    caches := (staleNames cs).foldl cachesDelete cs,
    trace :=
      [.console "[Service Worker] Ativando..." "", .cachesKeys] ++
      (staleNames cs).flatMap (fun cacheName =>
        [.console "[Service Worker] Removendo cache antigo:" cacheName,
         .cachesDelete cacheName]) ++
      [.console "[Service Worker] Ativação concluída" "", .clientsClaim] }

/-- State of a version after its `install` event, by the promises the listener
handed to `waitUntil`: a rejected one fails the installation. -/
inductive InstallState where
  | installed
  | installFailed
deriving DecidableEq, Repr

/-- The platform's verdict on an `install` event. -/
def installVerdict (h : Handling) : InstallState :=
  if h.waitUntil.all (fun p => match p with | .ok _ => true | .error _ => false) then
    .installed
  else .installFailed

/-! ## Background sync, periodic sync, push, messages -/

/-- Function `syncPredictions()`. -/
def syncPredictions (host : Host) (cs : CacheStorage) : Settled :=
  let request := urlRequest host "/api/sync-predictions" "POST"
  match host.fetch request with
  | .ok response =>
    { result := .ok (), caches := cs,
      trace :=
        if responseOk response then
          [.fetch request, .console "[Service Worker] Sincronização concluída" ""]
        else [.fetch request] }
  | .error error =>
    { result := .error error, caches := cs,
      trace := [.fetch request,
                .console "[Service Worker] Erro na sincronização:" error] }

/-- The `sync` event listener. -/
def syncListener (host : Host) (cs : CacheStorage) (tag : String) : Handling :=
  if tag = "sync-predictions" then
    let t := syncPredictions host cs
    { waitUntil := [t.result], caches := t.caches,
      trace := .console "[Service Worker] Background sync:" tag :: t.trace }
  else
    { waitUntil := [], caches := cs,
      trace := [.console "[Service Worker] Background sync:" tag] }

/-- The text of `${n}` for a number `n` that is an integer: its decimal digits
when its absolute value is below 2^53, the platform's rendering otherwise. -/
def numberText (host : Host) (n : Int) : String :=
  if n.natAbs < 2 ^ 53 then toString n else host.numberText n

/-- The notification of `updatePredictions`, with the rendered count. -/
def predictionsNotification (count : String) : NotificationOptions :=
  { body := count ++ " novas previsões disponíveis!",
    icon := "/static/images/icon-192x192.png",
    badge := "/static/images/badge-72x72.png",
    vibrate := [], data := none, actions := [] }

/-- Function `updatePredictions()`. The whole body is inside `try`; the `catch`
block logs the error. -/
def updatePredictions (host : Host) (cs : CacheStorage) : Settled :=
  let request := urlRequest host "/api/predictions/today" "GET"
  let failed (error : String) : Settled :=
    { result := .ok (), caches := cs,
      trace := [.fetch request,
                .console "[Service Worker] Erro ao atualizar previsões:" error] }
  let shown (count : String) : Settled :=
    { result := .ok (), caches := cs,
      trace := [.fetch request,
                .showNotification "MaraBet AI" (predictionsNotification count)] }
  let silent : Settled :=
    { result := .ok (), caches := cs, trace := [.fetch request] }
  match host.fetch request with
  | .error error => failed error
  | .ok response =>
    match host.json response.body with
    | .syntaxError reason => failed reason
    | .nullData => failed "TypeError"
    | .absent => silent
    | .count n => if n > 0 then shown (numberText host n) else silent
    | .other positive text => if positive then shown text else silent

/-- The `periodicsync` event listener. -/
def periodicsyncListener (host : Host) (cs : CacheStorage) (tag : String) : Handling :=
  if tag = "update-predictions" then
    let t := updatePredictions host cs
    { waitUntil := [t.result], caches := t.caches, trace := t.trace }
  else
    { waitUntil := [], caches := cs, trace := [] }

/-- The `options` of the `push` listener; `text` is `event.data.text()` when the
event has data, `now` is `Date.now()`. -/
def pushOptions (text : Option String) (now : Nat) : NotificationOptions :=
  { body :=
      match text with
      | some t => t
      | none => "Nova notificação do MaraBet AI",
    icon := "/static/images/icon-192x192.png",
    badge := "/static/images/badge-72x72.png",
    vibrate := [200, 100, 200],
    data := some (now, 1),
    actions :=
      [{ action := "explore", title := "Ver", icon := "/static/images/checkmark.png" },
       { action := "close", title := "Fechar", icon := "/static/images/xmark.png" }] }

/-- The `push` event listener. -/
def pushListener (cs : CacheStorage) (text : Option String) (now : Nat) : Handling :=
  { waitUntil := [.ok ()], caches := cs,
    trace := [.console "[Service Worker] Push recebido:" "",
              .showNotification "MaraBet AI" (pushOptions text now)] }

/-- The `notificationclick` event listener. -/
def notificationclickListener (cs : CacheStorage) (action : String) : Handling :=
  if action = "explore" then
    { waitUntil := [.ok ()], caches := cs,
      trace := [.console "[Service Worker] Notificação clicada:" "",
                .notificationClose, .openWindow "/"] }
  else
    { waitUntil := [], caches := cs,
      trace := [.console "[Service Worker] Notificação clicada:" "",
                .notificationClose] }

/-- The `event.data` of a message, as the listener reads it. -/
structure MessageData where
  type : String
  urls : List String
deriving DecidableEq, Repr

/-- The `CACHE_URLS` branch: `caches.open(RUNTIME_CACHE).then((cache) =>
cache.addAll(event.data.urls))`, handed to `waitUntil`. -/
def cacheUrls (host : Host) (h : Handling) (urls : List String) : Handling :=
  match host.openErr RUNTIME_CACHE with
  | some error =>
    { waitUntil := h.waitUntil ++ [.error error], caches := h.caches,
      trace := h.trace ++ [.cachesOpen RUNTIME_CACHE] }
  | none =>
    let opened := cachesOpen h.caches RUNTIME_CACHE
    let calls := h.trace ++ .cachesOpen RUNTIME_CACHE :: addAllTrace host RUNTIME_CACHE urls
    match cacheAddAll host opened RUNTIME_CACHE urls with
    | .ok populated =>
      { waitUntil := h.waitUntil ++ [.ok ()], caches := populated, trace := calls }
    | .error error =>
      { waitUntil := h.waitUntil ++ [.error error], caches := opened, trace := calls }

/-- The `CLEAR_CACHE` branch: every name of `caches.keys()` is deleted. -/
def clearCache (h : Handling) : Handling :=
  { waitUntil := h.waitUntil ++ [.ok ()],
    caches := (cachesKeys h.caches).foldl cachesDelete h.caches,
    trace := h.trace ++ .cachesKeys ::
      (cachesKeys h.caches).map (fun cacheName => .cachesDelete cacheName) }

/-- The `message` event listener: three `if` statements in sequence. -/
def messageListener (host : Host) (cs : CacheStorage) (data : MessageData) : Handling :=
  let received : Handling :=
    { waitUntil := [], caches := cs,
      trace := [.console "[Service Worker] Mensagem recebida:" data.type] }
  let skipped : Handling :=
    if data.type = "SKIP_WAITING" then
      { received with trace := received.trace ++ [.skipWaiting] }
    else received
  let cached : Handling :=
    if data.type = "CACHE_URLS" then cacheUrls host skipped data.urls else skipped
  if data.type = "CLEAR_CACHE" then clearCache cached else cached

/-- The events the worker listens to, with what each listener reads. -/
inductive Event where
  | install
  | activate
  | fetch (request : Request)
  | push (text : Option String) (now : Nat)
  | notificationclick (action : String)
  | sync (tag : String)
  | periodicsync (tag : String)
  | message (data : MessageData)
deriving DecidableEq, Repr

/-- The stores after the listener of an event has run. -/
def storesAfter (host : Host) (cs : CacheStorage) : Event → CacheStorage
  | .install => (installListener host cs).caches
  | .activate => (activateListener cs).caches
  | .fetch request => (fetchListener host cs request).caches
  | .push text now => (pushListener cs text now).caches
  | .notificationclick action => (notificationclickListener cs action).caches
  | .sync tag => (syncListener host cs tag).caches
  | .periodicsync tag => (periodicsyncListener host cs tag).caches
  | .message data => (messageListener host cs data).caches


/-! ## Vocabulary of the claims and concrete inputs -/

deriving instance DecidableEq for Except

/-- Scheme of a serialised URL: what stands before the first colon. -/
def schemeOf (url : String) : String :=
  String.mk (url.toList.takeWhile (fun c => c != ':'))

/-- The snapshot the runtime store holds for a key, if any. -/
def runtimeSnapshot (cs : CacheStorage) (k : RequestKey) : Option Response :=
  match storeOf cs RUNTIME_CACHE with
  | some c => cacheMatch c k
  | none => none

/-- Every snapshot held, with the name of its store and its key. -/
def snapshots : CacheStorage → List (String × RequestKey × Response)
  | [] => []
  | (name, c) :: rest => c.map (fun e => (name, e.1, e.2)) ++ snapshots rest

/-- The stores created before the store called `name`. -/
def earlierStores (cs : CacheStorage) (name : String) : CacheStorage :=
  cs.takeWhile (fun s => s.1 != name)

/-- A URL parser for the concrete inputs: the path of
`scheme://authority/path?query#fragment`. -/
def simplePathname (url : String) : String :=
  let rest := ((url.toList.dropWhile (fun c => c != ':')).drop 3).dropWhile (fun c => c != '/')
  let path := rest.takeWhile (fun c => c != '?' && c != '#')
  if path.isEmpty then "/" else String.mk path

/-- Origin of the worker in the concrete inputs. -/
def exampleOrigin : String := "https://marabet.example"

/-- The text of two large counts as JavaScript prints them, 10^21 and 2^60; the
concrete inputs use no other, and any other is given the text of an
overflow. -/
def exampleNumberText (n : Int) : String :=
  if n = 1000000000000000000000 then "1e+21"
  else if n = 1152921504606846976 then "1152921504606847000"
  else "Infinity"

/-- A reading of the bodies the concrete inputs use. -/
def exampleJson (body : String) : JsonData :=
  if body = "\x7b\"new_predictions\": 3\x7d" then .count 3
  else if body = "\x7b\"new_predictions\": 0\x7d" then .count 0
  else if body = "\x7b\"new_predictions\": -2\x7d" then .count (-2)
  else if body = "\x7b\"new_predictions\": 1000000000000000000000\x7d" then
    .count 1000000000000000000000
  else if body = "\x7b\x7d" then .absent
  else if body = "null" then .nullData
  else .syntaxError "SyntaxError"

/-- A host whose Cache Storage never fails, with the given network. -/
def hostWith (net : Request → Except String Response) : Host :=
  { pathname := simplePathname, resolve := fun p => exampleOrigin ++ p, fetch := net,
    openErr := fun _ => none, putErr := fun _ _ => none, json := exampleJson,
    numberText := exampleNumberText }

/-- A host whose network answers `r` and whose `caches.open` rejects. -/
def hostOpenFails (r : Response) : Host :=
  { pathname := simplePathname, resolve := fun p => exampleOrigin ++ p,
    fetch := fun _ => .ok r,
    openErr := fun _ => some "QuotaExceededError", putErr := fun _ _ => none,
    json := exampleJson,
    numberText := exampleNumberText }

/-- A host whose network answers `r` and whose `cache.put` rejects. -/
def hostPutFails (r : Response) : Host :=
  { pathname := simplePathname, resolve := fun p => exampleOrigin ++ p,
    fetch := fun _ => .ok r,
    openErr := fun _ => none, putErr := fun _ _ => some "TypeError",
    json := exampleJson,
    numberText := exampleNumberText }

/-- A host whose network is unreachable: every call rejects with `e`. -/
def hostDown (e : String) : Host :=
  hostWith (fun _ => .error e)

def okResponse : Response :=
  { body := "fresh", status := 200, statusText := "OK", headers := [] }

def oldResponse : Response :=
  { body := "precached", status := 200, statusText := "OK", headers := [] }

def newResponse : Response :=
  { body := "runtime", status := 200, statusText := "OK", headers := [] }

def notFoundResponse : Response :=
  { body := "missing", status := 404, statusText := "Not Found", headers := [] }

def cssRequest : Request :=
  { url := "https://marabet.example/static/css/responsive.css", method := "GET",
    destination := "style", mode := "no-cors" }

def apiImageRequest : Request :=
  { url := "https://marabet.example/api/teams/7/logo.png", method := "GET",
    destination := "image", mode := "no-cors" }

def apiRequest : Request :=
  { url := "https://marabet.example/api/predictions/today", method := "GET",
    destination := "", mode := "cors" }

def postRequest : Request :=
  { url := "https://marabet.example/api/sync-predictions", method := "POST",
    destination := "", mode := "cors" }

def pageRequest : Request :=
  { url := "https://marabet.example/predictions", method := "GET",
    destination := "document", mode := "navigate" }

def imageRequest : Request :=
  { url := "https://cdn.example/teams/7.png", method := "GET",
    destination := "image", mode := "no-cors" }

/-- The schemes of the URLs of the requests a worker is handed: the fetch
schemes of the Fetch standard and the extension and internal schemes of the
browsers. -/
def dispatchedSchemes : List String :=
  ["http", "https", "about", "blob", "data", "file", "filesystem", "ftp",
   "chrome-extension", "moz-extension", "safari-web-extension", "chrome",
   "resource", "ws", "wss"]

def extensionRequest : Request :=
  { url := "chrome-extension://abcdef/content.js", method := "GET",
    destination := "script", mode := "no-cors" }

/-- Both stores hold the stylesheet, the precache store (created at install)
first. -/
def twoCopies : CacheStorage :=
  [(CACHE_NAME, [(requestKey cssRequest, oldResponse)]),
   (RUNTIME_CACHE, [(requestKey cssRequest, newResponse)])]

/-- Only the runtime store holds the API answer. -/
def runtimeOnly : CacheStorage :=
  [(CACHE_NAME, []), (RUNTIME_CACHE, [(requestKey apiRequest, newResponse)])]

/-- The precache store holds the offline page. -/
def offlinePrecached : CacheStorage :=
  [(CACHE_NAME, [(("GET", "https://marabet.example/offline.html"), oldResponse)])]

/-- The snapshot the store called `name` holds for a key, if any. -/
def storeSnapshot (cs : CacheStorage) (name : String) (k : RequestKey) : Option Response :=
  match storeOf cs name with
  | some c => cacheMatch c k
  | none => none

def rootRequest : Request :=
  { url := "https://marabet.example/", method := "GET",
    destination := "document", mode := "navigate" }

/-- A navigation to the start page with a fragment. -/
def topRequest : Request :=
  { url := "https://marabet.example/#top", method := "GET",
    destination := "document", mode := "navigate" }

/-- State after a first install: the precache store holds the start page. -/
def rootPrecached : CacheStorage :=
  [(CACHE_NAME, [(requestKey rootRequest, oldResponse)])]

/-- The keys of the manifest entries, in order. -/
def manifestKeys (host : Host) : List RequestKey :=
  STATIC_ASSETS.map (fun url => requestKey (urlRequest host url "GET"))

/-- A manifest entry is reachable when its fetch resolves with a response
`cache.addAll` accepts: an ok response (status 200 to 299) other than 206. -/
def reachable (host : Host) (url : String) : Bool :=
  match host.fetch (urlRequest host url "GET") with
  | .ok r => responseOk r && r.status != 206
  | .error _ => false

/-- A host whose network answers every request but the one for `url`, whose
fetch rejects. -/
def hostMissing (url : String) : Host :=
  hostWith (fun request =>
    if request.url = exampleOrigin ++ url then .error "TypeError: Failed to fetch"
    else .ok okResponse)

/-- A host whose network answers every request with `r` and whose stores accept
no write: every `put` rejects with `QuotaExceededError`. -/
def hostQuotaExceeded (r : Response) : Host :=
  { pathname := simplePathname, resolve := fun p => exampleOrigin ++ p,
    fetch := fun _ => .ok r,
    openErr := fun _ => none,
    putErr := fun _ _ => some "QuotaExceededError", json := exampleJson,
    numberText := exampleNumberText }

/-- Number of stores called `name`. -/
def storeCount (cs : CacheStorage) (name : String) : Nat :=
  (cachesKeys cs).count name

/-- The names `activate` keeps. -/
def isCurrent (name : String) : Bool :=
  name == CACHE_NAME || name == RUNTIME_CACHE

/-- Stores of an older version beside the precache store of this one. -/
def afterUpgrade : CacheStorage :=
  [("marabet-ai-v0.9.0", [(requestKey rootRequest, oldResponse)]),
   ("marabet-runtime-v0.9.0", [(requestKey apiRequest, oldResponse)]),
   (CACHE_NAME, [(requestKey rootRequest, newResponse)])]

/-- The notifications a trace shows: title and options of each
`showNotification` call. -/
def notifications (t : List Effect) : List (String × NotificationOptions) :=
  t.filterMap (fun e =>
    match e with
    | .showNotification title options => some (title, options)
    | _ => none)

/-- A host whose network answers every request with the given body and
status 200. -/
def hostAnswering (body : String) : Host :=
  hostWith (fun _ => .ok { body := body, status := 200, statusText := "OK", headers := [] })

/-- The windows a trace opens: the URL of each `clients.openWindow` call. -/
def navigations (t : List Effect) : List String :=
  t.filterMap (fun e =>
    match e with
    | .openWindow url => some url
    | _ => none)

def serverErrorResponse : Response :=
  { body := "", status := 500, statusText := "Internal Server Error", headers := [] }

/-- A trace without its log lines. -/
def withoutConsole (t : List Effect) : List Effect :=
  t.filter (fun e =>
    match e with
    | .console _ _ => false
    | _ => true)

/-- The test of the `fetch` listener that sends a request to `cacheFirst`: the
path is not under `/api/` and the path is under `/static/` or the destination is
image, style or script. -/
def routesToCacheFirst (host : Host) (request : Request) : Bool :=
  !(startsWith (host.pathname request.url) "/api/") &&
    (startsWith (host.pathname request.url) "/static/" ||
      decide (request.destination = "image") || decide (request.destination = "style") ||
      decide (request.destination = "script"))

/-- A navigation to a document under `/static/`. -/
def staticPageRequest : Request :=
  { url := "https://marabet.example/static/help.html", method := "GET",
    destination := "document", mode := "navigate" }

/-- The stores with a current name created before the current precache store:
a runtime store older than the precache store. -/
def earlierCurrent (cs : CacheStorage) : CacheStorage :=
  (earlierStores cs CACHE_NAME).filter (fun s => isCurrent s.1)

/-- Only the runtime store exists, holding a copy of the start page. -/
def runtimeFirst : CacheStorage :=
  [(RUNTIME_CACHE, [(requestKey rootRequest, oldResponse)])]

end SW

/-! ## `db-config.js`: the credentials of `DatabaseConfig` -/

namespace DbConfig

/-- The object `getSecret` resolves with: the six properties read off the parsed
secret. -/
structure Credentials where
  username : String
  password : String
  host : String
  port : String
  engine : String
  dbInstanceIdentifier : String
deriving DecidableEq, Repr

/-- The object a resolved `getSecret` builds. Every call builds a new object:
`identity`, the number of the call, tells the objects of two calls apart even
when they hold the same values. -/
structure CredentialsObject where
  identity : Nat
  value : Credentials
deriving DecidableEq, Repr

/-- The fields of a `DatabaseConfig` that `getSecret` and `getCredentials` read
or write; `credentials` is `null` (`none`) after the constructor. The field
`pool` is touched by neither. -/
structure DatabaseConfig where
  secretName : String
  region : String
  databaseName : String
  credentials : Option CredentialsObject
deriving DecidableEq, Repr

/-- The object the constructor builds. -/
def newDatabaseConfig : DatabaseConfig :=
  { secretName := "rds!db-3758a324-12a2-4675-b5ff-b92acdf38483",
    region := "eu-west-1",
    databaseName := "marabet_production",
    credentials := none }

/-- What the `try` block of `getSecret` meets: the secret was fetched and parsed
and its properties read, or an error was thrown, with its `code` (absent for an
error of `JSON.parse`) and its message. -/
inductive SecretOutcome where
  | value (secret : Credentials)
  | failure (code : Option String) (message : String)
deriving DecidableEq, Repr

/-- Method `getSecret()`, as its call number `identity`: the promise it returns,
resolved with a new object or rejected with the message of the error thrown. -/
def getSecret (config : DatabaseConfig) (identity : Nat) (outcome : SecretOutcome) :
    Except String CredentialsObject :=
  match outcome with
  | .value secret =>
    .ok { identity := identity,
          value :=
            { username := secret.username, password := secret.password,
              host := secret.host, port := secret.port, engine := secret.engine,
              dbInstanceIdentifier := secret.dbInstanceIdentifier } }
  | .failure code message =>
    if code = some "ResourceNotFoundException" then
      .error ("Secret " ++ config.secretName ++ " não encontrado")
    else if code = some "InvalidRequestException" then
      .error ("Requisição inválida: " ++ message)
    else if code = some "InvalidParameterException" then
      .error ("Parâmetro inválido: " ++ message)
    else if code = some "DecryptionFailure" then
      .error ("Falha ao descriptografar: " ++ message)
    else .error message

/-- A `DatabaseConfig` in use: the object, the calls of `getCredentials`
suspended at `await this.getSecret()` (each by the number of its `getSecret`
call), and the number of `getSecret` calls made so far. -/
structure Run where
  config : DatabaseConfig
  waiting : List Nat
  secretCalls : Nat
deriving DecidableEq, Repr

/-- The run of a new object. -/
def newRun : Run :=
  { config := newDatabaseConfig, waiting := [], secretCalls := 0 }

/-- First part of `getCredentials()`, up to its `await` or its `return`: with
credentials stored the call returns them; otherwise it calls `getSecret` and is
suspended. The second component is the settled promise of a call that
returned. -/
def getCredentialsBegin (run : Run) : Run × Option (Except String CredentialsObject) :=
  match run.config.credentials with
  | some credentials => (run, some (.ok credentials))
  | none =>
    ({ run with waiting := run.waiting ++ [run.secretCalls],
                secretCalls := run.secretCalls + 1 }, none)

/-- Second part of `getCredentials()`: the `getSecret` of the suspended call
settles; when it resolved, the object is assigned to `this.credentials` and
`this.credentials` is returned; when it rejected, the call rejects and nothing
is assigned. -/
def getCredentialsResume (run : Run) (call : Nat) (outcome : SecretOutcome) :
    Run × Option (Except String CredentialsObject) :=
  if call ∈ run.waiting then
    match getSecret run.config call outcome with
    | .ok secret =>
      ({ run with config := { run.config with credentials := some secret },
                  waiting := run.waiting.erase call }, some (.ok secret))
    | .error error => ({ run with waiting := run.waiting.erase call }, some (.error error))
  else (run, none)

/-- What happens next to the object: `getCredentials()` is called, or the
`getSecret` of a suspended call settles. -/
inductive Step where
  | call
  | settle (call : Nat) (outcome : SecretOutcome)
deriving DecidableEq, Repr

def step (run : Run) : Step → Run × Option (Except String CredentialsObject)
  | .call => getCredentialsBegin run
  | .settle call outcome => getCredentialsResume run call outcome

/-- A sequence of steps: the run afterwards and the promises of the calls that
returned, in the order they settled. -/
def runSteps (run : Run) : List Step → Run × List (Except String CredentialsObject)
  | [] => (run, [])
  | s :: rest =>
    match (step run s).2 with
    | some result =>
      ((runSteps (step run s).1 rest).1, result :: (runSteps (step run s).1 rest).2)
    | none => runSteps (step run s).1 rest

/-- Method `getCredentials()` called with no other call in progress and run to
its end; `outcome` is what `getSecret` meets if it is called. -/
def getCredentials (run : Run) (outcome : SecretOutcome) :
    Run × Option (Except String CredentialsObject) :=
  match (getCredentialsBegin run).2 with
  | some result => ((getCredentialsBegin run).1, some result)
  | none => getCredentialsResume (getCredentialsBegin run).1 run.secretCalls outcome

/-- The secret of the concrete inputs. -/
def exampleSecret : Credentials :=
  { username := "marabet", password := "s3cret", host := "db.marabet.example",
    port := "5432", engine := "postgres", dbInstanceIdentifier := "db-1" }

end DbConfig

namespace SW

/-! ## Theorems -/

/-! ### The dispatcher -/

/-- An http or https URL starts with the four characters the listener tests. -/
theorem startsWith_http_of_scheme (url : String)
    (h : schemeOf url = "http" ∨ schemeOf url = "https") :
    startsWith url "http" = true := by
  have hp : url.toList.takeWhile (fun c => c != ':') <+: url.toList :=
    List.takeWhile_prefix _
  unfold startsWith
  rw [ List.isPrefixOf_iff_prefix]
  rcases h with h | h
  · have h1 : url.toList.takeWhile (fun c => c != ':') = "http".toList := by
      have := congrArg String.toList h
      simpa [schemeOf] using this
    rw [h1] at hp
    exact hp
  · have h1 : url.toList.takeWhile (fun c => c != ':') = "https".toList := by
      have := congrArg String.toList h
      simpa [schemeOf] using this
    rw [h1] at hp
    have h2 : "http".toList <+: "https".toList := ⟨['s'], by decide⟩
    exact h2.trans hp

/-- C1: for a request whose URL is http(s) the listener runs exactly one
strategy; it is `cacheFirst` exactly when the path does not start with `/api/`
and (the path starts with `/static/` or the destination is image, style or
script), and `networkFirst` in every other case, so also for an `/api/` path
whose destination is image. -/
theorem fetchListener_selects_one_strategy (host : Host) (cs : CacheStorage)
    (request : Request)
    (h : schemeOf request.url = "http" ∨ schemeOf request.url = "https") :
    (fetchListener host cs request).responded.length = 1 ∧
    ((startsWith (host.pathname request.url) "/api/" = false ∧
        (startsWith (host.pathname request.url) "/static/" = true ∨
          request.destination = "image" ∨ request.destination = "style" ∨
          request.destination = "script")) →
      fetchListener host cs request =
        respondWith .cacheFirst (cacheFirst host cs request)) ∧
    (¬ (startsWith (host.pathname request.url) "/api/" = false ∧
        (startsWith (host.pathname request.url) "/static/" = true ∨
          request.destination = "image" ∨ request.destination = "style" ∨
          request.destination = "script")) →
      fetchListener host cs request =
        respondWith .networkFirst (networkFirst host cs request)) ∧
    ((startsWith (host.pathname request.url) "/api/" = true ∧
        request.destination = "image") →
      (fetchListener host cs request).responded =
        [(.networkFirst, (networkFirst host cs request).result)]) := by
  have hs := startsWith_http_of_scheme request.url h
  refine ⟨?_, ?_, ?_, ?_⟩
  · unfold fetchListener
    simp only [hs, Bool.not_true, Bool.false_eq_true, if_false]
    split_ifs <;> simp [respondWith]
  · rintro ⟨hapi, hst⟩
    unfold fetchListener
    simp only [hs, hapi, Bool.not_true, Bool.false_eq_true, if_false]
    rw [if_pos]
    rcases hst with h1 | h1 | h1 | h1 <;> simp [h1]
  · intro hn
    unfold fetchListener
    simp only [hs, Bool.not_true, Bool.false_eq_true, if_false]
    by_cases hapi : startsWith (host.pathname request.url) "/api/" = true
    · simp [hapi]
    · have hapi2 : startsWith (host.pathname request.url) "/api/" = false := by
        simpa using hapi
      simp only [hapi2, Bool.false_eq_true, if_false]
      rw [if_neg]
      intro hc
      apply hn
      refine ⟨hapi2, ?_⟩
      simpa [or_assoc] using hc
  · rintro ⟨hapi, _⟩
    unfold fetchListener
    simp [hs, hapi, respondWith]

/-- Witness of C1: an image served from an `/api/` path goes to `networkFirst`. -/
theorem fetchListener_selects_one_strategy_witness :
    (schemeOf apiImageRequest.url = "http" ∨ schemeOf apiImageRequest.url = "https") ∧
    (fetchListener (hostDown "offline") [] apiImageRequest).responded =
      [(.networkFirst, (networkFirst (hostDown "offline") [] apiImageRequest).result)] :=
  ⟨by decide,
   (fetchListener_selects_one_strategy (hostDown "offline") [] apiImageRequest
      (by decide)).2.2.2 ⟨by decide, by decide⟩⟩

/-- A request whose URL does not start with `http` is dropped: no strategy runs,
`respondWith` is not called, no store is read or written. -/
theorem fetchListener_ignores_without_http (host : Host) (cs : CacheStorage)
    (request : Request) (h : startsWith request.url "http" = false) :
    fetchListener host cs request = { responded := [], caches := cs, trace := [] } := by
  unfold fetchListener
  simp [h]

/-- A URL that starts with `http` has a scheme that starts with `http`. -/
theorem scheme_startsWith_http (url : String) (h : startsWith url "http" = true) :
    startsWith (schemeOf url) "http" = true := by
  unfold startsWith at h ⊢
  rw [ List.isPrefixOf_iff_prefix] at h ⊢
  obtain ⟨rest, hrest⟩ := h
  refine ⟨rest.takeWhile (fun c => c != ':'), ?_⟩
  have hlist : url.toList = 'h' :: 't' :: 't' :: 'p' :: rest := by
    rw [← hrest]
    rfl
  show "http".toList ++ _ = (schemeOf url).toList
  unfold schemeOf
  rw [hlist]
  rfl

/-- C2: a request whose URL has a scheme other than http and https, among the
schemes a worker is handed, is dropped by the listener: no strategy runs,
`respondWith` is not called, no platform call is made and the stores are as
they were. -/
theorem fetchListener_ignores_other_schemes (host : Host) (cs : CacheStorage)
    (request : Request)
    (hdispatched : schemeOf request.url ∈ dispatchedSchemes)
    (hhttp : schemeOf request.url ≠ "http") (hhttps : schemeOf request.url ≠ "https") :
    (fetchListener host cs request).responded = [] ∧
    (fetchListener host cs request).trace = [] ∧
    (fetchListener host cs request).caches = cs := by
  have hall : ∀ scheme ∈ dispatchedSchemes,
      scheme = "http" ∨ scheme = "https" ∨ startsWith scheme "http" = false := by
    decide
  have hscheme : startsWith (schemeOf request.url) "http" = false := by
    rcases hall _ hdispatched with h | h | h
    · exact absurd h hhttp
    · exact absurd h hhttps
    · exact h
  have hurl : startsWith request.url "http" = false := by
    cases hs : startsWith request.url "http" with
    | false => rfl
    | true =>
      rw [scheme_startsWith_http request.url hs] at hscheme
      cases hscheme
  rw [fetchListener_ignores_without_http host cs request hurl]
  exact ⟨rfl, rfl, rfl⟩

/-- Witness of C2: a script of a browser extension. -/
theorem fetchListener_ignores_other_schemes_witness :
    schemeOf extensionRequest.url = "chrome-extension" ∧
    (fetchListener (hostWith (fun _ => .ok okResponse)) twoCopies
      extensionRequest).responded = [] ∧
    (fetchListener (hostWith (fun _ => .ok okResponse)) twoCopies
      extensionRequest).trace = [] ∧
    (fetchListener (hostWith (fun _ => .ok okResponse)) twoCopies
      extensionRequest).caches = twoCopies :=
  ⟨by decide,
   fetchListener_ignores_other_schemes (hostWith (fun _ => .ok okResponse)) twoCopies
     extensionRequest (by decide) (by decide) (by decide)⟩

/-! ### Lookups across stores -/

/-- Removing the fragment twice is removing it once. -/
theorem withoutFragment_idem (url : String) :
    withoutFragment (withoutFragment url) = withoutFragment url := by
  unfold withoutFragment
  have h : ∀ l : List Char,
      (l.takeWhile (fun c => c != '#')).takeWhile (fun c => c != '#') =
        l.takeWhile (fun c => c != '#') := by
    intro l
    induction l with
    | nil => rfl
    | cons c tl ih =>
      by_cases hc : (c != '#') = true
      · simp only [List.takeWhile_cons, hc, if_true]
        rw [ih]
      · simp [List.takeWhile_cons, hc]
  simp [h]

/-- A request and the same request without its fragment have one key, so a
lookup for `/#top` finds what was stored for `/`. -/
theorem requestKey_ignores_fragment (request : Request) :
    requestKey { request with url := withoutFragment request.url } = requestKey request ∧
    requestKey topRequest = requestKey rootRequest := by
  refine ⟨?_, by decide⟩
  simp [requestKey, withoutFragment_idem]

/-- A key held by some named store is found by `caches.match`. -/
theorem cachesMatch_isSome_of_store (cs : CacheStorage) (name : String) (k : RequestKey)
    (c : Cache) (s : Response) (hc : storeOf cs name = some c)
    (hs : cacheMatch c k = some s) : ∃ found, cachesMatch cs k = some found := by
  induction cs with
  | nil => simp [storeOf] at hc
  | cons hd rest ih =>
    obtain ⟨n, c0⟩ := hd
    cases h0 : cacheMatch c0 k with
    | some r => exact ⟨r, by simp [cachesMatch, h0]⟩
    | none =>
      simp only [cachesMatch, h0]
      apply ih
      by_cases hn : name = n
      · subst hn
        simp [storeOf, List.lookup] at hc
        subst hc
        rw [h0] at hs
        cases hs
      · have : (name == n) = false := by simpa using hn
        simpa [storeOf, List.lookup, this] using hc

/-- When no store created earlier holds the key, `caches.match` answers with the
snapshot of the named store. -/
theorem cachesMatch_eq_of_earlier_none (cs : CacheStorage) (name : String)
    (k : RequestKey) (c : Cache) (s : Response)
    (he : cachesMatch (earlierStores cs name) k = none)
    (hc : storeOf cs name = some c) (hs : cacheMatch c k = some s) :
    cachesMatch cs k = some s := by
  induction cs with
  | nil => simp [storeOf] at hc
  | cons hd rest ih =>
    obtain ⟨n, c0⟩ := hd
    by_cases hn : name = n
    · subst hn
      simp [storeOf, List.lookup] at hc
      subst hc
      simp [cachesMatch, hs]
    · have hb : (name == n) = false := by simpa using hn
      have hn2 : (n != name) = true := by
        simpa using (fun h => hn h.symm)
      have he2 : cachesMatch ((n, c0) :: earlierStores rest name) k = none := by
        simpa [earlierStores, List.takeWhile, hn2] using he
      cases h0 : cacheMatch c0 k with
      | some r => simp [cachesMatch, h0] at he2
      | none =>
        simp only [cachesMatch, h0] at he2 ⊢
        exact ih he2 (by simpa [storeOf, List.lookup, hb] using hc)

/-! ### `cacheFirst` on a hit -/

/-- C3, as the code has it: when the runtime store holds the request key,
`cacheFirst` resolves with the snapshot `caches.match` finds (there is one),
issues no network call and leaves the stores as they were; the snapshot is the
runtime store's one when no store created earlier holds the key. -/
theorem cacheFirst_hit_returns_first_match (host : Host) (cs : CacheStorage)
    (request : Request) (s : Response)
    (h : runtimeSnapshot cs (requestKey request) = some s) :
    cachesMatch cs (requestKey request) ≠ none ∧
    (∀ found, cachesMatch cs (requestKey request) = some found →
      (cacheFirst host cs request).result = .ok found) ∧
    networkCalls (cacheFirst host cs request).trace = 0 ∧
    (cacheFirst host cs request).caches = cs ∧
    (cachesMatch (earlierStores cs RUNTIME_CACHE) (requestKey request) = none →
      (cacheFirst host cs request).result = .ok s) := by
  unfold runtimeSnapshot at h
  cases hc : storeOf cs RUNTIME_CACHE with
  | none => simp [hc] at h
  | some c =>
    simp only [hc] at h
    obtain ⟨found, hf⟩ :=
      cachesMatch_isSome_of_store cs RUNTIME_CACHE (requestKey request) c s hc h
    refine ⟨by simp [hf], ?_, ?_, ?_, ?_⟩
    · intro f hf2
      simp [cacheFirst, hf2]
    · simp [cacheFirst, hf, networkCalls]
    · simp [cacheFirst, hf]
    · intro he
      have := cachesMatch_eq_of_earlier_none cs RUNTIME_CACHE (requestKey request) c s he hc h
      simp [cacheFirst, this]

/-- Witness of C3: only the runtime store holds the key. -/
theorem cacheFirst_hit_returns_first_match_witness :
    runtimeSnapshot runtimeOnly (requestKey apiRequest) = some newResponse ∧
    (cacheFirst (hostDown "offline") runtimeOnly apiRequest).result = .ok newResponse ∧
    networkCalls (cacheFirst (hostDown "offline") runtimeOnly apiRequest).trace = 0 :=
  ⟨by decide,
   (cacheFirst_hit_returns_first_match (hostDown "offline") runtimeOnly apiRequest
     newResponse (by decide)).2.2.2.2 (by decide),
   (cacheFirst_hit_returns_first_match (hostDown "offline") runtimeOnly apiRequest
     newResponse (by decide)).2.2.1⟩

/-- C3 fails as stated: the runtime store holds one snapshot of the stylesheet,
the precache store, created first, holds another, and `cacheFirst` answers with
the precache one. -/
theorem cacheFirst_hit_not_runtime_snapshot :
    runtimeSnapshot twoCopies (requestKey cssRequest) = some newResponse ∧
    (cacheFirst (hostDown "offline") twoCopies cssRequest).result = .ok oldResponse ∧
    (cacheFirst (hostDown "offline") twoCopies cssRequest).result ≠ .ok newResponse := by
  refine ⟨by decide, by decide, by decide⟩

/-! ### `networkFirst` -/

/-- When the network answers and the write-through does not reach the `catch`
block (status other than 200, or `caches.open` resolves), `networkFirst`
resolves with the network's response and never looks a key up. -/
theorem networkFirst_returns_network_response (host : Host) (cs : CacheStorage)
    (request : Request) (r : Response) (hnet : host.fetch request = .ok r)
    (hopen : r.status ≠ 200 ∨ host.openErr RUNTIME_CACHE = none) :
    (networkFirst host cs request).result = .ok r ∧
    ∀ k, Effect.cachesMatch k ∉ (networkFirst host cs request).trace := by
  unfold networkFirst
  simp only [hnet]
  by_cases h200 : r.status = 200
  · have ho : host.openErr RUNTIME_CACHE = none := by
      rcases hopen with h | h
      · exact absurd h200 h
      · exact h
    simp only [h200, if_true, ho]
    refine ⟨trivial, ?_⟩
    intro k
    unfold writeThrough
    cases host.putErr RUNTIME_CACHE (requestKey request) <;> simp
  · simp [h200]

/-- C4, at the failing input: the network answers the API request with a
status-200 response, `caches.open` rejects, and `networkFirst` resolves with
its 503 response in place of the network's. -/
theorem networkFirst_open_failure_loses_response :
    (hostOpenFails okResponse).fetch apiRequest = .ok okResponse ∧
    (networkFirst (hostOpenFails okResponse) [] apiRequest).result =
      .ok unavailableResponse ∧
    (networkFirst (hostOpenFails okResponse) [] apiRequest).result ≠ .ok okResponse ∧
    Effect.cachesMatch (requestKey apiRequest) ∈
      (networkFirst (hostOpenFails okResponse) [] apiRequest).trace := by
  refine ⟨rfl, by decide, by decide, by decide⟩

/-- C5: when the network call fails and `caches.match` finds a snapshot for the
request key, `networkFirst` resolves with that snapshot. -/
theorem networkFirst_falls_back_to_cache (host : Host) (cs : CacheStorage)
    (request : Request) (e : String) (s : Response)
    (hnet : host.fetch request = .error e)
    (hc : cachesMatch cs (requestKey request) = some s) :
    (networkFirst host cs request).result = .ok s := by
  simp [networkFirst, hnet, networkFirstCatch, hc]

/-- Witness of C5: a navigation to `/#top` offline, the start page precached. -/
theorem networkFirst_falls_back_to_cache_witness :
    (hostDown "offline").fetch topRequest = .error "offline" ∧
    cachesMatch rootPrecached (requestKey topRequest) = some oldResponse ∧
    (networkFirst (hostDown "offline") rootPrecached topRequest).result =
      .ok oldResponse :=
  ⟨rfl, by decide,
   networkFirst_falls_back_to_cache (hostDown "offline") rootPrecached topRequest
     "offline" oldResponse rfl (by decide)⟩

/-- C6, as the code has it: for a navigation whose network call fails and whose
key no store holds, `networkFirst` resolves with the snapshot cached under
`/offline.html` when there is one, and with its 503 response when there is
none. -/
theorem networkFirst_navigate_offline (host : Host) (cs : CacheStorage)
    (request : Request) (e : String)
    (hmode : request.mode = "navigate")
    (hnet : host.fetch request = .error e)
    (hc : cachesMatch cs (requestKey request) = none) :
    (∀ page, cachesMatch cs (offlineKey host) = some page →
      (networkFirst host cs request).result = .ok page) ∧
    (cachesMatch cs (offlineKey host) = none →
      (networkFirst host cs request).result = .ok unavailableResponse) := by
  constructor
  · intro page hp
    simp [networkFirst, hnet, networkFirstCatch, hc, hmode, hp]
  · intro hp
    simp [networkFirst, hnet, networkFirstCatch, hc, hmode, hp]

/-- Witness of C6: the offline page is precached. -/
theorem networkFirst_navigate_offline_witness :
    pageRequest.mode = "navigate" ∧
    (hostDown "offline").fetch pageRequest = .error "offline" ∧
    cachesMatch offlinePrecached (requestKey pageRequest) = none ∧
    (networkFirst (hostDown "offline") offlinePrecached pageRequest).result =
      .ok oldResponse :=
  ⟨rfl, rfl, by decide,
   (networkFirst_navigate_offline (hostDown "offline") offlinePrecached pageRequest
      "offline" rfl rfl (by decide)).1 oldResponse (by decide)⟩

/-- C6 fails as stated: with no store at all (the offline page was never
cached) a failed navigation resolves with the 503 response. -/
theorem networkFirst_navigate_without_offline_page :
    pageRequest.mode = "navigate" ∧
    (hostDown "offline").fetch pageRequest = .error "offline" ∧
    cachesMatch [] (requestKey pageRequest) = none ∧
    cachesMatch [] (offlineKey (hostDown "offline")) = none ∧
    (networkFirst (hostDown "offline") [] pageRequest).result = .ok unavailableResponse ∧
    unavailableResponse.status = 503 := by
  refine ⟨rfl, rfl, rfl, rfl, by decide, rfl⟩

/-- C7, as the code has it: for a request that is no navigation, whose network
call fails and whose key no store holds, `networkFirst` resolves with the fixed
response of status 503 and status text `Service Unavailable`; the response and
the trace are the same whatever the network error was. -/
theorem networkFirst_unavailable (host : Host) (cs : CacheStorage)
    (request : Request) (e : String)
    (hmode : request.mode ≠ "navigate")
    (hnet : host.fetch request = .error e)
    (hc : cachesMatch cs (requestKey request) = none) :
    (networkFirst host cs request).result = .ok unavailableResponse ∧
    unavailableResponse.status = 503 ∧
    unavailableResponse.statusText = "Service Unavailable" ∧
    unavailableResponse.body = "Offline - Sem conexão com internet" ∧
    (networkFirst host cs request).trace =
      [.fetch request,
       .console "[Service Worker] Rede falhou, tentando cache:" request.url,
       .cachesMatch (requestKey request)] := by
  refine ⟨?_, rfl, rfl, rfl, ?_⟩
  · simp [networkFirst, hnet, networkFirstCatch, hc, hmode]
  · simp [networkFirst, hnet, networkFirstCatch, hc, hmode]

/-- Witness of C7: an API call offline with nothing cached. -/
theorem networkFirst_unavailable_witness :
    apiRequest.mode ≠ "navigate" ∧
    (hostDown "ECONNREFUSED").fetch apiRequest = .error "ECONNREFUSED" ∧
    cachesMatch [] (requestKey apiRequest) = none ∧
    (networkFirst (hostDown "ECONNREFUSED") [] apiRequest).result =
      .ok unavailableResponse :=
  ⟨by decide, rfl, rfl,
   (networkFirst_unavailable (hostDown "ECONNREFUSED") [] apiRequest "ECONNREFUSED"
      (by decide) rfl rfl).1⟩

/-- C7 fails as stated: two different network errors give the same response,
whose body, status text and headers do not contain the error, and the same
trace, so the response does not carry the error. -/
theorem networkFirst_unavailable_forgets_error :
    (hostDown "ECONNREFUSED").fetch apiRequest ≠ (hostDown "ETIMEDOUT").fetch apiRequest ∧
    (networkFirst (hostDown "ECONNREFUSED") [] apiRequest).result =
      (networkFirst (hostDown "ETIMEDOUT") [] apiRequest).result ∧
    (networkFirst (hostDown "ECONNREFUSED") [] apiRequest).trace =
      (networkFirst (hostDown "ETIMEDOUT") [] apiRequest).trace ∧
    (networkFirst (hostDown "ECONNREFUSED") [] apiRequest).result =
      .ok { body := "Offline - Sem conexão com internet", status := 503,
            statusText := "Service Unavailable",
            headers := [("Content-Type", "text/plain")] } := by
  refine ⟨by decide, by decide, by decide, by decide⟩

/-! ### `cacheFirst` on a miss -/

/-- On a miss, when the network answers and the write-through does not reach
the `catch` block (status other than 200, or `caches.open` resolves),
`cacheFirst` resolves with the network's response. -/
theorem cacheFirst_returns_network_response (host : Host) (cs : CacheStorage)
    (request : Request) (r : Response)
    (hc : cachesMatch cs (requestKey request) = none)
    (hnet : host.fetch request = .ok r)
    (hopen : r.status ≠ 200 ∨ host.openErr RUNTIME_CACHE = none) :
    (cacheFirst host cs request).result = .ok r := by
  unfold cacheFirst
  simp only [hc, hnet]
  by_cases h200 : r.status = 200
  · have ho : host.openErr RUNTIME_CACHE = none := by
      rcases hopen with h | h
      · exact absurd h200 h
      · exact h
    simp [h200, ho]
  · simp [h200]

/-- C8, at the failing input: nothing is cached, the network answers with a
status-200 response, `caches.open` rejects, and `cacheFirst` resolves with its
503 response for the stylesheet and with the placeholder for the image, in
place of the network's response. -/
theorem cacheFirst_open_failure_loses_response :
    cachesMatch [] (requestKey cssRequest) = none ∧
    (hostOpenFails okResponse).fetch cssRequest = .ok okResponse ∧
    (cacheFirst (hostOpenFails okResponse) [] cssRequest).result = .ok offlineResponse ∧
    (cacheFirst (hostOpenFails okResponse) [] cssRequest).result ≠ .ok okResponse ∧
    (cacheFirst (hostOpenFails okResponse) [] imageRequest).result =
      .ok placeholderResponse := by
  refine ⟨rfl, rfl, by decide, by decide, rfl⟩

/-- C10: on a miss with a failed network call `cacheFirst` resolves, with the
fixed SVG placeholder of content type `image/svg+xml` when the destination is
image and with a response of status 503 otherwise; it does not reject. -/
theorem cacheFirst_network_failure (host : Host) (cs : CacheStorage)
    (request : Request) (e : String)
    (hc : cachesMatch cs (requestKey request) = none)
    (hnet : host.fetch request = .error e) :
    (request.destination = "image" →
      (cacheFirst host cs request).result = .ok placeholderResponse) ∧
    (request.destination ≠ "image" →
      (cacheFirst host cs request).result = .ok offlineResponse) ∧
    placeholderResponse.body = placeholderSvg ∧
    placeholderResponse.headers = [("Content-Type", "image/svg+xml")] ∧
    offlineResponse.status = 503 ∧
    (∀ reason, (cacheFirst host cs request).result ≠ .error reason) := by
  refine ⟨?_, ?_, rfl, rfl, rfl, ?_⟩
  · intro hd
    simp [cacheFirst, hc, hnet, cacheFirstCatch, hd]
  · intro hd
    simp [cacheFirst, hc, hnet, cacheFirstCatch, hd]
  · intro reason
    by_cases hd : request.destination = "image" <;>
      simp [cacheFirst, hc, hnet, cacheFirstCatch, hd]

/-- Witness of C10: an image and a stylesheet, offline, nothing cached. -/
theorem cacheFirst_network_failure_witness :
    cachesMatch [] (requestKey imageRequest) = none ∧
    (hostDown "offline").fetch imageRequest = .error "offline" ∧
    (cacheFirst (hostDown "offline") [] imageRequest).result = .ok placeholderResponse ∧
    (cacheFirst (hostDown "offline") [] cssRequest).result = .ok offlineResponse :=
  ⟨rfl, rfl,
   (cacheFirst_network_failure (hostDown "offline") [] imageRequest "offline" rfl rfl).1
     (by decide),
   (cacheFirst_network_failure (hostDown "offline") [] cssRequest "offline" rfl rfl).2.1
     (by decide)⟩

/-! ### Write-through -/

/-- After `cache.put(key, r)` the store answers `r` for the key. -/
theorem cacheMatch_cachePut (c : Cache) (k : RequestKey) (r : Response) :
    cacheMatch (cachePut c k r) k = some r := by
  unfold cacheMatch cachePut
  induction c with
  | nil => simp [List.lookup]
  | cons hd tl ih =>
    obtain ⟨k0, r0⟩ := hd
    by_cases h : k0 = k
    · have hf : List.filter (fun e : RequestKey × Response => e.1 != k) ((k0, r0) :: tl) =
          List.filter (fun e => e.1 != k) tl := by
        simp [List.filter_cons, h]
      rw [hf]
      exact ih
    · have hf : List.filter (fun e : RequestKey × Response => e.1 != k) ((k0, r0) :: tl) =
          (k0, r0) :: List.filter (fun e => e.1 != k) tl := by
        simp [List.filter_cons, h]
      have hb2 : (k == k0) = false := by
        simpa using (fun h2 => h h2.symm)
      rw [hf, List.cons_append, List.lookup_cons, hb2]
      exact ih

/-- The named store after a put on it. -/
theorem storeOf_storePut (cs : CacheStorage) (name : String) (k : RequestKey)
    (r : Response) :
    storeOf (storePut cs name k r) name =
      (storeOf cs name).map (fun c => cachePut c k r) := by
  unfold storeOf storePut
  induction cs with
  | nil => simp
  | cons hd tl ih =>
    obtain ⟨n, c⟩ := hd
    by_cases h : n = name
    · subst h
      rw [List.map_cons, if_pos rfl, List.lookup_cons_self, List.lookup_cons_self]
      rfl
    · have hb : (name == n) = false := by
        simpa using (fun h2 => h h2.symm)
      rw [List.map_cons, if_neg h, List.lookup_cons, List.lookup_cons, hb]
      exact ih

/-- The named store exists after `caches.open(name)`. -/
theorem storeOf_cachesOpen (cs : CacheStorage) (name : String) :
    ∃ c, storeOf (cachesOpen cs name) name = some c := by
  unfold cachesOpen
  cases h : storeOf cs name with
  | some c => exact ⟨c, by simp [h]⟩
  | none =>
    refine ⟨[], ?_⟩
    simp only []
    unfold storeOf at h ⊢
    induction cs with
    | nil => simp [List.lookup]
    | cons hd tl ih =>
      by_cases hn : name = hd.1
      · simp [List.lookup, hn] at h
      · have hb : (name == hd.1) = false := by simpa using hn
        simp only [List.lookup, hb] at h
        simpa [List.lookup, hb] using ih h

/-- The runtime store answers `r` for the key after open and put. -/
theorem runtimeSnapshot_written (cs : CacheStorage) (k : RequestKey) (r : Response) :
    runtimeSnapshot (storePut (cachesOpen cs RUNTIME_CACHE) RUNTIME_CACHE k r) k =
      some r := by
  obtain ⟨c, hc⟩ := storeOf_cachesOpen cs RUNTIME_CACHE
  unfold runtimeSnapshot
  rw [storeOf_storePut, hc]
  simp [cacheMatch_cachePut]

theorem snapshots_append (a b : CacheStorage) :
    snapshots (a ++ b) = snapshots a ++ snapshots b := by
  induction a with
  | nil => rfl
  | cons hd tl ih =>
    obtain ⟨n, c⟩ := hd
    simp [snapshots, ih]

/-- Opening a store adds no snapshot. -/
theorem snapshots_cachesOpen (cs : CacheStorage) (name : String) :
    snapshots (cachesOpen cs name) = snapshots cs := by
  unfold cachesOpen
  cases storeOf cs name with
  | some c => rfl
  | none => simp [snapshots_append, snapshots]

/-- A put adds at most the snapshot put. -/
theorem mem_snapshots_storePut (cs : CacheStorage) (name : String) (k : RequestKey)
    (r : Response) (x : String × RequestKey × Response)
    (hx : x ∈ snapshots (storePut cs name k r)) :
    x ∈ snapshots cs ∨ x = (name, k, r) := by
  induction cs with
  | nil => simp [storePut, snapshots] at hx
  | cons hd tl ih =>
    obtain ⟨n, c⟩ := hd
    have hcons : storePut ((n, c) :: tl) name k r =
        (if n = name then (n, cachePut c k r) else (n, c)) :: storePut tl name k r := rfl
    rw [hcons] at hx
    by_cases h : n = name
    · subst h
      rw [if_pos rfl] at hx
      simp only [snapshots, List.mem_append, List.mem_map] at hx ⊢
      rcases hx with ⟨e, he, rfl⟩ | hx
      · simp only [cachePut, List.mem_append, List.mem_filter, List.mem_singleton] at he
        rcases he with ⟨he, _⟩ | rfl
        · exact Or.inl (Or.inl ⟨e, he, rfl⟩)
        · exact Or.inr rfl
      · rcases ih hx with h1 | h1
        · exact Or.inl (Or.inr h1)
        · exact Or.inr h1
    · rw [if_neg h] at hx
      simp only [snapshots, List.mem_append] at hx ⊢
      rcases hx with hx | hx
      · exact Or.inl (Or.inl hx)
      · rcases ih hx with h1 | h1
        · exact Or.inl (Or.inr h1)
        · exact Or.inr h1

/-- The stores after the write-through of a response. -/
theorem writeThrough_caches (host : Host) (cs : CacheStorage) (request : Request)
    (r : Response) :
    (host.putErr RUNTIME_CACHE (requestKey request) = none →
      (writeThrough host cs request r).1 =
        storePut (cachesOpen cs RUNTIME_CACHE) RUNTIME_CACHE (requestKey request) r) ∧
    (host.putErr RUNTIME_CACHE (requestKey request) ≠ none →
      (writeThrough host cs request r).1 = cachesOpen cs RUNTIME_CACHE) := by
  unfold writeThrough
  cases host.putErr RUNTIME_CACHE (requestKey request) <;> simp

/-- The stores after `networkFirst`, by cases. -/
theorem networkFirst_caches (host : Host) (cs : CacheStorage) (request : Request) :
    (networkFirst host cs request).caches = cs ∨
    (networkFirst host cs request).caches = cachesOpen cs RUNTIME_CACHE ∨
    ∃ r, host.fetch request = .ok r ∧ r.status = 200 ∧
      host.openErr RUNTIME_CACHE = none ∧
      host.putErr RUNTIME_CACHE (requestKey request) = none ∧
      (networkFirst host cs request).caches =
        storePut (cachesOpen cs RUNTIME_CACHE) RUNTIME_CACHE (requestKey request) r := by
  unfold networkFirst
  cases hnet : host.fetch request with
  | error e =>
    left
    simp only [networkFirstCatch]
    split <;> [rfl; (split <;> [(split <;> rfl); rfl])]
  | ok r =>
    by_cases h200 : r.status = 200
    · cases ho : host.openErr RUNTIME_CACHE with
      | some e =>
        left
        simp only [h200, if_true, networkFirstCatch]
        split <;> [rfl; (split <;> [(split <;> rfl); rfl])]
      | none =>
        cases hp : host.putErr RUNTIME_CACHE (requestKey request) with
        | none =>
          right; right
          exact ⟨r, rfl, h200, rfl, rfl, by simp [h200, writeThrough, hp]⟩
        | some e =>
          right; left
          simp [h200, writeThrough, hp]
    · left
      simp [h200]

/-- The stores after `cacheFirst`, by cases. -/
theorem cacheFirst_caches (host : Host) (cs : CacheStorage) (request : Request) :
    (cacheFirst host cs request).caches = cs ∨
    (cacheFirst host cs request).caches = cachesOpen cs RUNTIME_CACHE ∨
    ∃ r, host.fetch request = .ok r ∧ r.status = 200 ∧
      host.openErr RUNTIME_CACHE = none ∧
      host.putErr RUNTIME_CACHE (requestKey request) = none ∧
      cachesMatch cs (requestKey request) = none ∧
      (cacheFirst host cs request).caches =
        storePut (cachesOpen cs RUNTIME_CACHE) RUNTIME_CACHE (requestKey request) r := by
  unfold cacheFirst
  cases hc : cachesMatch cs (requestKey request) with
  | some s => left; rfl
  | none =>
    cases hnet : host.fetch request with
    | error e => left; rfl
    | ok r =>
      by_cases h200 : r.status = 200
      · cases ho : host.openErr RUNTIME_CACHE with
        | some e => left; simp [h200, cacheFirstCatch]
        | none =>
          cases hp : host.putErr RUNTIME_CACHE (requestKey request) with
          | none =>
            right; right
            exact ⟨r, rfl, h200, rfl, rfl, rfl, by simp [h200, writeThrough, hp]⟩
          | some e =>
            right; left
            simp [h200, writeThrough, hp]
      · left
        simp [h200]

/-- C9, as the code has it: a response `r` obtained from the network by
`networkFirst`, or by `cacheFirst` on a miss, is written to the runtime store
under the request key exactly when its status is 200 and the store opens and
accepts the put; otherwise no snapshot is added or replaced, and for a status
other than 200 (201, 204, 206, 3xx, 4xx, 5xx) the stores are left as they
were. Hence every snapshot the strategies add has status 200. -/
theorem write_through_iff_status_200 (host : Host) (cs : CacheStorage)
    (request : Request) (r : Response) (hnet : host.fetch request = .ok r) :
    ((r.status = 200 ∧ host.openErr RUNTIME_CACHE = none ∧
        host.putErr RUNTIME_CACHE (requestKey request) = none) →
      (networkFirst host cs request).caches =
        storePut (cachesOpen cs RUNTIME_CACHE) RUNTIME_CACHE (requestKey request) r ∧
      runtimeSnapshot (networkFirst host cs request).caches (requestKey request) =
        some r) ∧
    (¬ (r.status = 200 ∧ host.openErr RUNTIME_CACHE = none ∧
        host.putErr RUNTIME_CACHE (requestKey request) = none) →
      snapshots (networkFirst host cs request).caches = snapshots cs) ∧
    (r.status ≠ 200 → (networkFirst host cs request).caches = cs) ∧
    (cachesMatch cs (requestKey request) = none →
      ((r.status = 200 ∧ host.openErr RUNTIME_CACHE = none ∧
          host.putErr RUNTIME_CACHE (requestKey request) = none) →
        (cacheFirst host cs request).caches =
          storePut (cachesOpen cs RUNTIME_CACHE) RUNTIME_CACHE (requestKey request) r ∧
        runtimeSnapshot (cacheFirst host cs request).caches (requestKey request) =
          some r) ∧
      (¬ (r.status = 200 ∧ host.openErr RUNTIME_CACHE = none ∧
          host.putErr RUNTIME_CACHE (requestKey request) = none) →
        snapshots (cacheFirst host cs request).caches = snapshots cs) ∧
      (r.status ≠ 200 → (cacheFirst host cs request).caches = cs)) ∧
    (∀ x ∈ snapshots (networkFirst host cs request).caches,
      x ∈ snapshots cs ∨ x.2.2.status = 200) ∧
    (∀ x ∈ snapshots (cacheFirst host cs request).caches,
      x ∈ snapshots cs ∨ x.2.2.status = 200) := by
  have hcatchN : ∀ before, (networkFirstCatch host cs request before).caches = cs := by
    intro before
    simp only [networkFirstCatch]
    split <;> [rfl; (split <;> [(split <;> rfl); rfl])]
  refine ⟨?_, ?_, ?_, ?_, ?_, ?_⟩
  · rintro ⟨h200, ho, hp⟩
    have hcs : (networkFirst host cs request).caches =
        storePut (cachesOpen cs RUNTIME_CACHE) RUNTIME_CACHE (requestKey request) r := by
      simp [networkFirst, hnet, h200, ho, writeThrough, hp]
    exact ⟨hcs, by rw [hcs]; exact runtimeSnapshot_written cs (requestKey request) r⟩
  · intro hn
    by_cases h200 : r.status = 200
    · cases ho : host.openErr RUNTIME_CACHE with
      | some e =>
        have : (networkFirst host cs request).caches = cs := by
          simp only [networkFirst, hnet, h200, if_true, ho]
          exact hcatchN _
        rw [this]
      | none =>
        cases hp : host.putErr RUNTIME_CACHE (requestKey request) with
        | none => exact absurd ⟨h200, ho, hp⟩ hn
        | some e =>
          have : (networkFirst host cs request).caches = cachesOpen cs RUNTIME_CACHE := by
            simp [networkFirst, hnet, h200, ho, writeThrough, hp]
          rw [this, snapshots_cachesOpen]
    · have : (networkFirst host cs request).caches = cs := by
        simp [networkFirst, hnet, h200]
      rw [this]
  · intro h200
    simp [networkFirst, hnet, h200]
  · intro hc
    refine ⟨?_, ?_, ?_⟩
    · rintro ⟨h200, ho, hp⟩
      have hcs : (cacheFirst host cs request).caches =
          storePut (cachesOpen cs RUNTIME_CACHE) RUNTIME_CACHE (requestKey request) r := by
        simp [cacheFirst, hc, hnet, h200, ho, writeThrough, hp]
      exact ⟨hcs, by rw [hcs]; exact runtimeSnapshot_written cs (requestKey request) r⟩
    · intro hn
      by_cases h200 : r.status = 200
      · cases ho : host.openErr RUNTIME_CACHE with
        | some e =>
          have : (cacheFirst host cs request).caches = cs := by
            simp [cacheFirst, hc, hnet, h200, ho, cacheFirstCatch]
          rw [this]
        | none =>
          cases hp : host.putErr RUNTIME_CACHE (requestKey request) with
          | none => exact absurd ⟨h200, ho, hp⟩ hn
          | some e =>
            have : (cacheFirst host cs request).caches = cachesOpen cs RUNTIME_CACHE := by
              simp [cacheFirst, hc, hnet, h200, ho, writeThrough, hp]
            rw [this, snapshots_cachesOpen]
      · have : (cacheFirst host cs request).caches = cs := by
          simp [cacheFirst, hc, hnet, h200]
        rw [this]
    · intro h200
      simp [cacheFirst, hc, hnet, h200]
  · intro x hx
    rcases networkFirst_caches host cs request with h | h | ⟨r2, _, h200, _, _, h⟩
    · rw [h] at hx
      exact Or.inl hx
    · rw [h, snapshots_cachesOpen] at hx
      exact Or.inl hx
    · rw [h] at hx
      rcases mem_snapshots_storePut _ _ _ _ _ hx with h1 | h1
      · rw [snapshots_cachesOpen] at h1
        exact Or.inl h1
      · exact Or.inr (by rw [h1]; exact h200)
  · intro x hx
    rcases cacheFirst_caches host cs request with h | h | ⟨r2, _, h200, _, _, _, h⟩
    · rw [h] at hx
      exact Or.inl hx
    · rw [h, snapshots_cachesOpen] at hx
      exact Or.inl hx
    · rw [h] at hx
      rcases mem_snapshots_storePut _ _ _ _ _ hx with h1 | h1
      · rw [snapshots_cachesOpen] at h1
        exact Or.inl h1
      · exact Or.inr (by rw [h1]; exact h200)

/-- Witness of C9: a status-200 answer to the API request is written, a 404 one
leaves the stores as they were. -/
theorem write_through_iff_status_200_witness :
    (hostWith (fun _ => .ok okResponse)).fetch apiRequest = .ok okResponse ∧
    runtimeSnapshot (networkFirst (hostWith (fun _ => .ok okResponse)) [] apiRequest).caches
      (requestKey apiRequest) = some okResponse ∧
    (hostWith (fun _ => .ok notFoundResponse)).fetch apiRequest = .ok notFoundResponse ∧
    (networkFirst (hostWith (fun _ => .ok notFoundResponse)) [] apiRequest).caches = [] :=
  ⟨rfl,
   ((write_through_iff_status_200 (hostWith (fun _ => .ok okResponse)) [] apiRequest
      okResponse rfl).1 ⟨rfl, rfl, rfl⟩).2,
   rfl,
   (write_through_iff_status_200 (hostWith (fun _ => .ok notFoundResponse)) [] apiRequest
      notFoundResponse rfl).2.2.1 (by decide)⟩

/-- C9 fails as stated: the network answers the POST with a status-200
response, the store rejects the put, and no snapshot is written. -/
theorem write_through_rejected_put_not_written :
    (hostPutFails okResponse).fetch postRequest = .ok okResponse ∧
    okResponse.status = 200 ∧
    (networkFirst (hostPutFails okResponse) [] postRequest).result = .ok okResponse ∧
    runtimeSnapshot (networkFirst (hostPutFails okResponse) [] postRequest).caches
      (requestKey postRequest) = none ∧
    snapshots (networkFirst (hostPutFails okResponse) [] postRequest).caches = [] := by
  refine ⟨rfl, rfl, by decide, by decide, by decide⟩

/-! ### The lookup after a write-through -/

/-- A put on the named store leaves the stores created before it as they were. -/
theorem earlierStores_storePut (cs : CacheStorage) (name : String) (k : RequestKey)
    (r : Response) :
    earlierStores (storePut cs name k r) name = earlierStores cs name := by
  induction cs with
  | nil => rfl
  | cons hd tl ih =>
    obtain ⟨n, c⟩ := hd
    have hcons : storePut ((n, c) :: tl) name k r =
        (if n = name then (n, cachePut c k r) else (n, c)) :: storePut tl name k r := rfl
    rw [hcons]
    by_cases h : n = name
    · subst h
      simp [earlierStores, List.takeWhile]
    · have hb : (n != name) = true := by simpa using h
      rw [if_neg h]
      unfold earlierStores at ih ⊢
      rw [List.takeWhile_cons, List.takeWhile_cons]
      simp only [hb, if_true]
      rw [ih]

/-- Opening the named store leaves the stores created before it as they were. -/
theorem earlierStores_cachesOpen (cs : CacheStorage) (name : String) :
    earlierStores (cachesOpen cs name) name = earlierStores cs name := by
  unfold cachesOpen
  cases h : storeOf cs name with
  | some c => rfl
  | none =>
    simp only []
    unfold storeOf at h
    unfold earlierStores
    induction cs with
    | nil => simp [List.takeWhile]
    | cons hd tl ih =>
      obtain ⟨n, c⟩ := hd
      by_cases hn : name = n
      · subst hn
        simp [List.lookup] at h
      · have hb : (name == n) = false := by simpa using hn
        have hb2 : (n != name) = true := by
          simpa using (fun h2 => hn h2.symm)
        rw [List.lookup_cons, hb] at h
        rw [List.cons_append, List.takeWhile_cons, List.takeWhile_cons]
        simp only [hb2, if_true]
        rw [ih h]

/-- A snapshot found in the stores created before the named one is what
`caches.match` answers. -/
theorem cachesMatch_of_earlier_some (cs : CacheStorage) (name : String)
    (k : RequestKey) (old : Response)
    (he : cachesMatch (earlierStores cs name) k = some old) :
    cachesMatch cs k = some old := by
  induction cs with
  | nil => simp [earlierStores, cachesMatch] at he
  | cons hd tl ih =>
    obtain ⟨n, c⟩ := hd
    by_cases hn : n = name
    · subst hn
      simp [earlierStores, List.takeWhile, cachesMatch] at he
    · have hb : (n != name) = true := by simpa using hn
      have he2 : cachesMatch ((n, c) :: earlierStores tl name) k = some old := by
        simpa [earlierStores, List.takeWhile, hb] using he
      cases h0 : cacheMatch c k with
      | some r =>
        simp only [cachesMatch, h0] at he2 ⊢
        exact he2
      | none =>
        simp only [cachesMatch, h0] at he2 ⊢
        exact ih he2

/-- What `caches.match` answers after `caches.open(RUNTIME_CACHE)` and the put
of `r`: the snapshot of an earlier store when one holds the key, `r`
otherwise. -/
theorem cachesMatch_after_write (cs : CacheStorage) (k : RequestKey) (r : Response) :
    (cachesMatch (earlierStores cs RUNTIME_CACHE) k = none →
      cachesMatch (storePut (cachesOpen cs RUNTIME_CACHE) RUNTIME_CACHE k r) k = some r) ∧
    (∀ old, cachesMatch (earlierStores cs RUNTIME_CACHE) k = some old →
      cachesMatch (storePut (cachesOpen cs RUNTIME_CACHE) RUNTIME_CACHE k r) k =
        some old) := by
  have hearly : earlierStores (storePut (cachesOpen cs RUNTIME_CACHE) RUNTIME_CACHE k r)
      RUNTIME_CACHE = earlierStores cs RUNTIME_CACHE := by
    rw [earlierStores_storePut, earlierStores_cachesOpen]
  constructor
  · intro he
    obtain ⟨c, hc⟩ := storeOf_cachesOpen cs RUNTIME_CACHE
    apply cachesMatch_eq_of_earlier_none _ RUNTIME_CACHE k (cachePut c k r) r
    · rw [hearly]
      exact he
    · rw [storeOf_storePut, hc]
      rfl
    · exact cacheMatch_cachePut c k r
  · intro old he
    apply cachesMatch_of_earlier_some _ RUNTIME_CACHE
    rw [hearly]
    exact he

/-- C11, as the code has it: after `cacheFirst` or `networkFirst` has written a
status-200 network response `r` through, `caches.match` of the same key answers
`r` itself when no store created before the runtime store holds the key, which
is always so for `cacheFirst`; when an earlier store (the precache store) holds
the key, the lookup after `networkFirst` answers that store's snapshot. -/
theorem lookup_after_write_through (host : Host) (cs : CacheStorage)
    (request : Request) (r : Response)
    (hnet : host.fetch request = .ok r) (h200 : r.status = 200)
    (hopen : host.openErr RUNTIME_CACHE = none)
    (hput : host.putErr RUNTIME_CACHE (requestKey request) = none) :
    (cachesMatch cs (requestKey request) = none →
      cachesMatch (cacheFirst host cs request).caches (requestKey request) = some r) ∧
    (cachesMatch (earlierStores cs RUNTIME_CACHE) (requestKey request) = none →
      cachesMatch (networkFirst host cs request).caches (requestKey request) = some r) ∧
    (∀ old, cachesMatch (earlierStores cs RUNTIME_CACHE) (requestKey request) = some old →
      cachesMatch (networkFirst host cs request).caches (requestKey request) =
        some old) := by
  have hN : (networkFirst host cs request).caches =
      storePut (cachesOpen cs RUNTIME_CACHE) RUNTIME_CACHE (requestKey request) r := by
    simp [networkFirst, hnet, h200, hopen, writeThrough, hput]
  refine ⟨?_, ?_, ?_⟩
  · intro hc
    have hC : (cacheFirst host cs request).caches =
        storePut (cachesOpen cs RUNTIME_CACHE) RUNTIME_CACHE (requestKey request) r := by
      simp [cacheFirst, hc, hnet, h200, hopen, writeThrough, hput]
    rw [hC]
    apply (cachesMatch_after_write cs (requestKey request) r).1
    cases he : cachesMatch (earlierStores cs RUNTIME_CACHE) (requestKey request) with
    | none => rfl
    | some old =>
      have := cachesMatch_of_earlier_some cs RUNTIME_CACHE (requestKey request) old he
      rw [hc] at this
      cases this
  · intro he
    rw [hN]
    exact (cachesMatch_after_write cs (requestKey request) r).1 he
  · intro old he
    rw [hN]
    exact (cachesMatch_after_write cs (requestKey request) r).2 old he

/-- Witness of C11: the API answer written through with no store before. -/
theorem lookup_after_write_through_witness :
    (hostWith (fun _ => .ok okResponse)).fetch apiRequest = .ok okResponse ∧
    okResponse.status = 200 ∧
    cachesMatch (earlierStores [] RUNTIME_CACHE) (requestKey apiRequest) = none ∧
    cachesMatch (networkFirst (hostWith (fun _ => .ok okResponse)) [] apiRequest).caches
      (requestKey apiRequest) = some okResponse :=
  ⟨rfl, rfl, rfl,
   (lookup_after_write_through (hostWith (fun _ => .ok okResponse)) [] apiRequest
      okResponse rfl rfl rfl rfl).2.1 rfl⟩

/-- C11 fails as stated: the precache store holds the start page, `networkFirst`
writes the fresh status-200 answer into the runtime store, and the next
`caches.match` of the key answers the precached snapshot, whose body differs. -/
theorem lookup_after_write_through_stale :
    (hostWith (fun _ => .ok okResponse)).fetch rootRequest = .ok okResponse ∧
    okResponse.status = 200 ∧
    storeSnapshot (networkFirst (hostWith (fun _ => .ok okResponse)) rootPrecached
      rootRequest).caches RUNTIME_CACHE (requestKey rootRequest) = some okResponse ∧
    cachesMatch (networkFirst (hostWith (fun _ => .ok okResponse)) rootPrecached
      rootRequest).caches (requestKey rootRequest) = some oldResponse ∧
    oldResponse.body ≠ okResponse.body := by
  refine ⟨rfl, rfl, by decide, by decide, by decide⟩

/-! ### The `install` transition -/

/-- The promise the `install` listener hands to `waitUntil` resolves, whatever
the network and the stores do. -/
theorem installListener_always_resolves (host : Host) (cs : CacheStorage) :
    (installListener host cs).waitUntil = [.ok ()] ∧
    installVerdict (installListener host cs) = .installed := by
  have h : (installListener host cs).waitUntil = [.ok ()] := by
    unfold installListener
    cases host.openErr CACHE_NAME with
    | some e => rfl
    | none =>
      simp only []
      cases cacheAddAll host (cachesOpen cs CACHE_NAME) CACHE_NAME STATIC_ASSETS <;> rfl
  exact ⟨h, by simp [installVerdict, h]⟩

/-- C12, at the failing input: the fetch of the manifest entry `/offline.html`
rejects, and the promise the `install` listener handed to `waitUntil` resolves,
so the version is installed; `skipWaiting` was not called and the precache
store is empty. -/
theorem install_resolves_despite_failed_fetch :
    "/offline.html" ∈ STATIC_ASSETS ∧
    (hostMissing "/offline.html").fetch
      (urlRequest (hostMissing "/offline.html") "/offline.html" "GET") =
      .error "TypeError: Failed to fetch" ∧
    (installListener (hostMissing "/offline.html") []).waitUntil = [.ok ()] ∧
    installVerdict (installListener (hostMissing "/offline.html") []) = .installed ∧
    (installListener (hostMissing "/offline.html") []).caches = [(CACHE_NAME, [])] ∧
    Effect.skipWaiting ∉ (installListener (hostMissing "/offline.html") []).trace := by
  refine ⟨by decide, by decide, by decide, by decide, by decide, by decide⟩

/-- One unreachable URL makes the first stage of `cache.addAll` reject. -/
theorem addAllResponses_error (host : Host) (urls : List String) (url : String)
    (hurl : url ∈ urls) (hfail : reachable host url = false) :
    ∃ e, addAllResponses host urls = .error e := by
  induction urls with
  | nil => simp at hurl
  | cons u rest ih =>
    unfold addAllResponses
    cases hf : host.fetch (urlRequest host u "GET") with
    | error e => exact ⟨e, rfl⟩
    | ok r =>
      by_cases hok : (responseOk r && r.status != 206) = true
      · have hne : url ≠ u := by
          intro h
          subst h
          simp [reachable, hf, hok] at hfail
        have hin : url ∈ rest := by
          rcases List.mem_cons.mp hurl with h | h
          · exact absurd h hne
          · exact h
        obtain ⟨e, he⟩ := ih hin
        exact ⟨e, by simp [hok, he]⟩
      · exact ⟨"TypeError", by simp [hok]⟩

/-- The store after `caches.open` of an absent name is empty. -/
theorem storeOf_cachesOpen_of_none (cs : CacheStorage) (name : String)
    (h : storeOf cs name = none) : storeOf (cachesOpen cs name) name = some [] := by
  unfold cachesOpen
  simp only [h]
  unfold storeOf at h ⊢
  induction cs with
  | nil => simp [List.lookup]
  | cons hd tl ih =>
    obtain ⟨n, c⟩ := hd
    by_cases hn : name = n
    · subst hn
      simp [List.lookup] at h
    · have hb : (name == n) = false := by simpa using hn
      rw [List.lookup_cons, hb] at h
      rw [List.cons_append, List.lookup_cons, hb]
      exact ih h

/-- Opening a store that exists changes nothing. -/
theorem cachesOpen_of_some (cs : CacheStorage) (name : String) (c : Cache)
    (h : storeOf cs name = some c) : cachesOpen cs name = cs := by
  simp [cachesOpen, h]

/-- C13: when one entry of the manifest is unreachable, the `install` listener
writes no snapshot into any store, and a precache store that was absent or
empty before holds no entry afterwards. -/
theorem install_unreachable_entry_writes_nothing (host : Host) (cs : CacheStorage)
    (url : String) (hurl : url ∈ STATIC_ASSETS) (hfail : reachable host url = false) :
    snapshots (installListener host cs).caches = snapshots cs ∧
    ((storeOf cs CACHE_NAME = none ∨ storeOf cs CACHE_NAME = some []) →
      (storeOf (installListener host cs).caches CACHE_NAME = none ∨
        storeOf (installListener host cs).caches CACHE_NAME = some [])) := by
  have hcs : (installListener host cs).caches = cs ∨
      (installListener host cs).caches = cachesOpen cs CACHE_NAME := by
    unfold installListener
    cases host.openErr CACHE_NAME with
    | some e => exact Or.inl rfl
    | none =>
      right
      simp only []
      obtain ⟨e, he⟩ := addAllResponses_error host STATIC_ASSETS url hurl hfail
      simp [cacheAddAll, he]
  constructor
  · rcases hcs with h | h
    · rw [h]
    · rw [h, snapshots_cachesOpen]
  · intro hbefore
    rcases hcs with h | h
    · rw [h]
      exact hbefore
    · rw [h]
      rcases hbefore with h0 | h0
      · exact Or.inr (storeOf_cachesOpen_of_none cs CACHE_NAME h0)
      · rw [cachesOpen_of_some cs CACHE_NAME [] h0]
        exact Or.inr h0

/-- Witness of C13: the offline page is unreachable at a first install. -/
theorem install_unreachable_entry_writes_nothing_witness :
    "/offline.html" ∈ STATIC_ASSETS ∧
    reachable (hostMissing "/offline.html") "/offline.html" = false ∧
    snapshots (installListener (hostMissing "/offline.html") []).caches = [] ∧
    (storeOf (installListener (hostMissing "/offline.html") []).caches CACHE_NAME = none ∨
      storeOf (installListener (hostMissing "/offline.html") []).caches CACHE_NAME =
        some []) :=
  ⟨by decide, by decide,
   (install_unreachable_entry_writes_nothing (hostMissing "/offline.html") []
      "/offline.html" (by decide) (by decide)).1,
   (install_unreachable_entry_writes_nothing (hostMissing "/offline.html") []
      "/offline.html" (by decide) (by decide)).2 (Or.inl rfl)⟩

/-- When every URL is reachable the first stage of `cache.addAll` resolves with
one entry for each URL, holding the response fetched for it. -/
theorem addAllResponses_ok (host : Host) (urls : List String)
    (h : ∀ url ∈ urls, reachable host url = true) :
    ∃ entries, addAllResponses host urls = .ok entries ∧
      (∀ url ∈ urls, ∀ r, host.fetch (urlRequest host url "GET") = .ok r →
        (requestKey (urlRequest host url "GET"), r) ∈ entries) ∧
      (∀ e ∈ entries, ∃ url ∈ urls, e.1 = requestKey (urlRequest host url "GET") ∧
        host.fetch (urlRequest host url "GET") = .ok e.2) ∧
      entries.map (fun e => e.1) =
        urls.map (fun url => requestKey (urlRequest host url "GET")) := by
  induction urls with
  | nil => exact ⟨[], rfl, by simp, by simp, rfl⟩
  | cons u rest ih =>
    obtain ⟨entries, he, h1, h2, h3⟩ :=
      ih (fun url hu => h url (List.mem_cons_of_mem _ hu))
    have hu := h u (List.mem_cons_self _ _)
    unfold reachable at hu
    cases hf : host.fetch (urlRequest host u "GET") with
    | error e => simp [hf] at hu
    | ok r =>
      simp only [hf] at hu
      refine ⟨(requestKey (urlRequest host u "GET"), r) :: entries, ?_, ?_, ?_, ?_⟩
      rotate_right
      · simp [h3]
      · unfold addAllResponses
        simp [hf, hu, he]
      · intro url hurl r2 hr2
        rcases List.mem_cons.mp hurl with hx | hx
        · subst hx
          rw [hf] at hr2
          cases hr2
          exact List.mem_cons_self _ _
        · exact List.mem_cons_of_mem _ (h1 url hx r2 hr2)
      · intro e hmem
        rcases List.mem_cons.mp hmem with hx | hx
        · subst hx
          exact ⟨u, List.mem_cons_self _ _, rfl, hf⟩
        · obtain ⟨url, hurl, hk, hr⟩ := h2 e hx
          exact ⟨url, List.mem_cons_of_mem _ hurl, hk, hr⟩

/-- A put of another key leaves the answer for a key as it was. -/
theorem cacheMatch_cachePut_ne (c : Cache) (k k2 : RequestKey) (r : Response)
    (hne : k ≠ k2) : cacheMatch (cachePut c k2 r) k = cacheMatch c k := by
  unfold cacheMatch cachePut
  have hb0 : (k == k2) = false := by simpa using hne
  induction c with
  | nil => simp [List.lookup, hb0]
  | cons hd tl ih =>
    obtain ⟨k0, r0⟩ := hd
    by_cases h : k0 = k2
    · have hf : List.filter (fun e : RequestKey × Response => e.1 != k2) ((k0, r0) :: tl) =
          List.filter (fun e => e.1 != k2) tl := by
        simp [List.filter_cons, h]
      have hb : (k == k0) = false := by
        rw [h]
        exact hb0
      rw [hf, ih, List.lookup_cons, hb]
    · have hf : List.filter (fun e : RequestKey × Response => e.1 != k2) ((k0, r0) :: tl) =
          (k0, r0) :: List.filter (fun e => e.1 != k2) tl := by
        simp [List.filter_cons, h]
      rw [hf, List.cons_append, List.lookup_cons, List.lookup_cons, ih]

/-- Puts of other keys leave the answer for a key as it was. -/
theorem cacheMatch_foldl_put_other (entries : List (RequestKey × Response)) (c : Cache)
    (k : RequestKey) (hk : ∀ e ∈ entries, e.1 ≠ k) :
    cacheMatch (entries.foldl (fun acc e => cachePut acc e.1 e.2) c) k = cacheMatch c k := by
  induction entries generalizing c with
  | nil => rfl
  | cons e rest ih =>
    rw [List.foldl_cons, ih _ (fun x hx => hk x (List.mem_cons_of_mem _ hx))]
    exact cacheMatch_cachePut_ne c k e.1 e.2 (fun h => hk e (List.mem_cons_self _ _) h.symm)

/-- After a batch of puts in which a key has one response, the store answers
that response for the key. -/
theorem cacheMatch_foldl_put (entries : List (RequestKey × Response)) (c : Cache)
    (k : RequestKey) (r : Response) (hmem : (k, r) ∈ entries)
    (hfun : ∀ e ∈ entries, e.1 = k → e.2 = r) :
    cacheMatch (entries.foldl (fun acc e => cachePut acc e.1 e.2) c) k = some r := by
  induction entries generalizing c with
  | nil => simp at hmem
  | cons e rest ih =>
    rw [List.foldl_cons]
    by_cases hlater : ∃ x ∈ rest, x.1 = k
    · obtain ⟨x, hx, hxk⟩ := hlater
      have hx2 : x.2 = r := hfun x (List.mem_cons_of_mem _ hx) hxk
      have hin : (k, r) ∈ rest := by
        have : x = (k, r) := Prod.ext hxk hx2
        rw [← this]
        exact hx
      exact ih _ hin (fun y hy => hfun y (List.mem_cons_of_mem _ hy))
    · have hnot : ∀ x ∈ rest, x.1 ≠ k := fun x hx hxk => hlater ⟨x, hx, hxk⟩
      have he : e = (k, r) := by
        rcases List.mem_cons.mp hmem with h | h
        · exact h.symm
        · exact absurd rfl (hnot (k, r) h)
      rw [cacheMatch_foldl_put_other rest _ k hnot, he]
      exact cacheMatch_cachePut c k r

/-- A put on one store leaves the other stores as they were. -/
theorem storeOf_storePut_ne (cs : CacheStorage) (name other : String) (k : RequestKey)
    (r : Response) (hne : other ≠ name) :
    storeOf (storePut cs name k r) other = storeOf cs other := by
  unfold storeOf storePut
  induction cs with
  | nil => rfl
  | cons hd tl ih =>
    obtain ⟨n, c⟩ := hd
    by_cases h : n = name
    · subst h
      have hb : (other == n) = false := by simpa using hne
      rw [List.map_cons, if_pos rfl, List.lookup_cons, List.lookup_cons, hb]
      exact ih
    · rw [List.map_cons, if_neg h, List.lookup_cons, List.lookup_cons, ih]

/-- Opening one store leaves the other stores as they were. -/
theorem storeOf_cachesOpen_ne (cs : CacheStorage) (name other : String)
    (hne : other ≠ name) : storeOf (cachesOpen cs name) other = storeOf cs other := by
  unfold cachesOpen
  cases storeOf cs name with
  | some c => rfl
  | none =>
    simp only []
    unfold storeOf
    have hb : (other == name) = false := by simpa using hne
    induction cs with
    | nil => simp [List.lookup, hb]
    | cons hd tl ih =>
      rw [List.cons_append, List.lookup_cons, List.lookup_cons, ih]

/-- The named store after a batch of puts. -/
theorem storeOf_putAll (cs : CacheStorage) (name : String)
    (entries : List (RequestKey × Response)) :
    storeOf (putAll cs name entries) name =
      (storeOf cs name).map (fun c => entries.foldl (fun acc e => cachePut acc e.1 e.2) c) := by
  unfold putAll
  induction entries generalizing cs with
  | nil => simp
  | cons e rest ih =>
    rw [List.foldl_cons, ih, storeOf_storePut]
    cases storeOf cs name <;> rfl

/-- The other stores after a batch of puts. -/
theorem storeOf_putAll_ne (cs : CacheStorage) (name other : String)
    (entries : List (RequestKey × Response)) (hne : other ≠ name) :
    storeOf (putAll cs name entries) other = storeOf cs other := by
  unfold putAll
  induction entries generalizing cs with
  | nil => rfl
  | cons e rest ih =>
    rw [List.foldl_cons, ih, storeOf_storePut_ne cs name other e.1 e.2 hne]

/-- The stores after an `install` whose population succeeds: the precache store
opened, then one put for each entry, after which the store holds for each entry
the response fetched for it. -/
theorem installListener_caches_of_success (host : Host) (cs : CacheStorage)
    (hreach : ∀ url ∈ STATIC_ASSETS, reachable host url = true)
    (hdistinct : (manifestKeys host).Nodup)
    (hopen : host.openErr CACHE_NAME = none)
    (hput : ∀ url ∈ STATIC_ASSETS,
      host.putErr CACHE_NAME (requestKey (urlRequest host url "GET")) = none) :
    ∃ entries,
      (installListener host cs).caches =
        putAll (cachesOpen cs CACHE_NAME) CACHE_NAME entries ∧
      ∀ url ∈ STATIC_ASSETS, ∀ r, host.fetch (urlRequest host url "GET") = .ok r →
        storeSnapshot (putAll (cachesOpen cs CACHE_NAME) CACHE_NAME entries) CACHE_NAME
          (requestKey (urlRequest host url "GET")) = some r := by
  obtain ⟨entries, he, h1, h2, h3⟩ := addAllResponses_ok host STATIC_ASSETS hreach
  have hnodup : (entries.map (fun e => e.1)).Nodup := by
    rw [h3]
    exact hdistinct
  have hnone : entries.findSome? (fun e => host.putErr CACHE_NAME e.1) = none := by
    rw [List.findSome?_eq_none_iff]
    intro e hmem
    obtain ⟨url, hurl, hk, _⟩ := h2 e hmem
    rw [hk]
    exact hput url hurl
  refine ⟨entries, by simp [installListener, hopen, cacheAddAll, he, hnodup, hnone], ?_⟩
  intro url hurl r hr
  obtain ⟨c, hc⟩ := storeOf_cachesOpen cs CACHE_NAME
  unfold storeSnapshot
  rw [storeOf_putAll, hc]
  simp only [Option.map_some']
  apply cacheMatch_foldl_put entries c _ r (h1 url hurl r hr)
  intro e hmem hkey
  have heq : e = (requestKey (urlRequest host url "GET"), r) :=
    List.inj_on_of_nodup_map hnodup hmem (h1 url hurl r hr) hkey
  rw [heq]

/-- C14, as the code has it: when every manifest entry is reachable (its fetch
resolves with an ok response other than 206), the entries have eight distinct
keys, and the precache store opens and accepts the puts, then after the
`install` listener the precache store holds, for each of the 8 entries of
`STATIC_ASSETS` (`/` and `/offline.html` among them), the response fetched for
it, and every other store is as it was. -/
theorem install_populates_precache (host : Host) (cs : CacheStorage)
    (hreach : ∀ url ∈ STATIC_ASSETS, reachable host url = true)
    (hdistinct : (manifestKeys host).Nodup)
    (hopen : host.openErr CACHE_NAME = none)
    (hput : ∀ url ∈ STATIC_ASSETS,
      host.putErr CACHE_NAME (requestKey (urlRequest host url "GET")) = none) :
    (∀ url ∈ STATIC_ASSETS, ∀ r, host.fetch (urlRequest host url "GET") = .ok r →
      storeSnapshot (installListener host cs).caches CACHE_NAME
        (requestKey (urlRequest host url "GET")) = some r) ∧
    (∀ url ∈ STATIC_ASSETS,
      storeSnapshot (installListener host cs).caches CACHE_NAME
        (requestKey (urlRequest host url "GET")) ≠ none) ∧
    (∀ other, other ≠ CACHE_NAME →
      storeOf (installListener host cs).caches other = storeOf cs other) ∧
    STATIC_ASSETS.length = 8 ∧ "/" ∈ STATIC_ASSETS ∧ "/offline.html" ∈ STATIC_ASSETS := by
  obtain ⟨entries, hcs, hsnap0⟩ :=
    installListener_caches_of_success host cs hreach hdistinct hopen hput
  have hsnap : ∀ url ∈ STATIC_ASSETS, ∀ r,
      host.fetch (urlRequest host url "GET") = .ok r →
      storeSnapshot (installListener host cs).caches CACHE_NAME
        (requestKey (urlRequest host url "GET")) = some r := by
    intro url hurl r hr
    rw [hcs]
    exact hsnap0 url hurl r hr
  refine ⟨hsnap, ?_, ?_, rfl, by decide, by decide⟩
  · intro url hurl
    have hu := hreach url hurl
    unfold reachable at hu
    cases hf : host.fetch (urlRequest host url "GET") with
    | error e => simp [hf] at hu
    | ok r => simp [hsnap url hurl r hf]
  · intro other hne
    rw [hcs, storeOf_putAll_ne _ _ _ _ hne, storeOf_cachesOpen_ne _ _ _ hne]

/-- Witness of C14: a first install with every entry answered. -/
theorem install_populates_precache_witness :
    (∀ url ∈ STATIC_ASSETS, reachable (hostWith (fun _ => .ok okResponse)) url = true) ∧
    (manifestKeys (hostWith (fun _ => .ok okResponse))).Nodup ∧
    storeSnapshot (installListener (hostWith (fun _ => .ok okResponse)) []).caches
      CACHE_NAME ("GET", "https://marabet.example/offline.html") = some okResponse ∧
    storeOf (installListener (hostWith (fun _ => .ok okResponse)) []).caches
      RUNTIME_CACHE = none :=
  ⟨by decide, by decide,
   (install_populates_precache (hostWith (fun _ => .ok okResponse)) [] (by decide)
      (by decide) rfl (fun _ _ => rfl)).1 "/offline.html" (by decide) okResponse rfl,
   (install_populates_precache (hostWith (fun _ => .ok okResponse)) [] (by decide)
      (by decide) rfl (fun _ _ => rfl)).2.2.1 RUNTIME_CACHE (by decide)⟩

/-- C14 fails as stated: every manifest entry is fetched with status 200 (eight
network calls), the precache store accepts no write, and after the `install`
listener the store is empty. -/
theorem install_fetched_but_not_stored :
    (∀ url ∈ STATIC_ASSETS, reachable (hostQuotaExceeded okResponse) url = true) ∧
    (manifestKeys (hostQuotaExceeded okResponse)).Nodup ∧
    networkCalls (installListener (hostQuotaExceeded okResponse) []).trace = 8 ∧
    (installListener (hostQuotaExceeded okResponse) []).caches = [(CACHE_NAME, [])] ∧
    storeSnapshot (installListener (hostQuotaExceeded okResponse) []).caches
      CACHE_NAME ("GET", "https://marabet.example/") = none := by
  refine ⟨by decide, by decide, by decide, by decide, by decide⟩

/-! ### The `activate` transition -/

/-- Deleting a list of names keeps the stores with another name. -/
theorem foldl_cachesDelete (names : List String) (cs : CacheStorage) :
    names.foldl cachesDelete cs = cs.filter (fun s => !names.contains s.1) := by
  induction names generalizing cs with
  | nil => simp
  | cons n ns ih =>
    rw [List.foldl_cons, ih, cachesDelete, List.filter_filter]
    apply List.filter_congr
    intro s _
    simp only [List.contains_cons, Bool.not_or]
    rw [Bool.and_comm]
    rfl

/-- The stores after `activate`: those with a current name, as they were. -/
theorem activateListener_caches (cs : CacheStorage) :
    (activateListener cs).caches = cs.filter (fun s => isCurrent s.1) := by
  show (staleNames cs).foldl cachesDelete cs = _
  rw [foldl_cachesDelete]
  apply List.filter_congr
  intro s hs
  have hkey : s.1 ∈ cachesKeys cs := List.mem_map_of_mem _ hs
  by_cases hc : isCurrent s.1 = true
  · have hnot : s.1 ∉ staleNames cs := by
      intro hmem
      have := (List.mem_filter.mp hmem).2
      simp only [isCurrent, Bool.or_eq_true, beq_iff_eq] at hc
      rcases hc with h | h <;> simp [h] at this
    simp [hc, hnot]
  · have hin : s.1 ∈ staleNames cs := by
      apply List.mem_filter.mpr
      refine ⟨hkey, ?_⟩
      simp only [isCurrent, Bool.or_eq_true, beq_iff_eq, not_or] at hc
      simp [hc.1, hc.2]
    have hc2 : isCurrent s.1 = false := by simpa using hc
    simp [hc2, hin]

/-- The store of a name after a filter on names. -/
theorem storeOf_filter (cs : CacheStorage) (p : String → Bool) (name : String) :
    storeOf (cs.filter (fun s => p s.1)) name =
      if p name = true then storeOf cs name else none := by
  unfold storeOf
  induction cs with
  | nil => simp
  | cons hd tl ih =>
    obtain ⟨n, c⟩ := hd
    by_cases hn : name = n
    · subst hn
      by_cases hp : p name = true
      · simp [List.filter_cons, hp]
      · have hp2 : p name = false := by simpa using hp
        simp only [List.filter_cons, hp2, Bool.false_eq_true, if_false] at ih ⊢
        exact ih
    · have hb : (name == n) = false := by simpa using hn
      by_cases hp : p n = true
      · simp only [List.filter_cons, hp, if_true]
        rw [List.lookup_cons, List.lookup_cons, hb]
        exact ih
      · have hp2 : p n = false := by simpa using hp
        simp only [List.filter_cons, hp2, Bool.false_eq_true, if_false]
        rw [List.lookup_cons, hb]
        exact ih

/-- C15: the `activate` listener keeps exactly the stores whose name is the
current precache name or the current runtime name, each with its content, and
deletes every other store, whatever stores existed. -/
theorem activate_prunes_stale_stores (cs : CacheStorage) :
    (activateListener cs).caches =
      cs.filter (fun s => s.1 == CACHE_NAME || s.1 == RUNTIME_CACHE) ∧
    (∀ name, name ≠ CACHE_NAME → name ≠ RUNTIME_CACHE →
      storeOf (activateListener cs).caches name = none) ∧
    storeOf (activateListener cs).caches CACHE_NAME = storeOf cs CACHE_NAME ∧
    storeOf (activateListener cs).caches RUNTIME_CACHE = storeOf cs RUNTIME_CACHE := by
  have h := activateListener_caches cs
  refine ⟨h, ?_, ?_, ?_⟩
  · intro name h1 h2
    rw [h, storeOf_filter cs isCurrent name]
    simp [isCurrent, h1, h2]
  · rw [h, storeOf_filter cs isCurrent CACHE_NAME]
    simp [isCurrent]
  · rw [h, storeOf_filter cs isCurrent RUNTIME_CACHE]
    simp [isCurrent]

/-- Witness of C15: the stores of version 0.9.0 go, the precache store stays. -/
theorem activate_prunes_stale_stores_witness :
    (activateListener afterUpgrade).caches =
      [(CACHE_NAME, [(requestKey rootRequest, newResponse)])] ∧
    storeOf (activateListener afterUpgrade).caches "marabet-ai-v0.9.0" = none :=
  ⟨(activate_prunes_stale_stores afterUpgrade).1.trans (by decide),
   (activate_prunes_stale_stores afterUpgrade).2.1 "marabet-ai-v0.9.0" (by decide)
     (by decide)⟩

/-- The names after a filter on names. -/
theorem cachesKeys_filter (cs : CacheStorage) (p : String → Bool) :
    cachesKeys (cs.filter (fun s => p s.1)) = (cachesKeys cs).filter p := by
  unfold cachesKeys
  induction cs with
  | nil => rfl
  | cons hd tl ih =>
    by_cases hp : p hd.1 = true
    · simp [List.filter_cons, hp, ih]
    · have hp2 : p hd.1 = false := by simpa using hp
      simp [List.filter_cons, hp2, ih]

/-- C16, as the code has it: after the `activate` listener no store with a stale
name exists, and there are as many stores with the current precache name, and
with the current runtime name, as before: the listener creates none. With the
names of the stores distinct there is at most one of each. -/
theorem activate_store_counts (cs : CacheStorage) :
    (∀ name, name ≠ CACHE_NAME → name ≠ RUNTIME_CACHE →
      storeCount (activateListener cs).caches name = 0) ∧
    storeCount (activateListener cs).caches CACHE_NAME = storeCount cs CACHE_NAME ∧
    storeCount (activateListener cs).caches RUNTIME_CACHE = storeCount cs RUNTIME_CACHE ∧
    ((cachesKeys cs).Nodup →
      storeCount (activateListener cs).caches CACHE_NAME ≤ 1 ∧
      storeCount (activateListener cs).caches RUNTIME_CACHE ≤ 1) := by
  have h : ∀ name, storeCount (activateListener cs).caches name =
      ((cachesKeys cs).filter isCurrent).count name := by
    intro name
    rw [activateListener_caches, storeCount, cachesKeys_filter]
  have hC : storeCount (activateListener cs).caches CACHE_NAME = storeCount cs CACHE_NAME := by
    rw [h, storeCount]
    exact List.count_filter (by simp [isCurrent])
  have hR : storeCount (activateListener cs).caches RUNTIME_CACHE =
      storeCount cs RUNTIME_CACHE := by
    rw [h, storeCount]
    exact List.count_filter (by simp [isCurrent])
  refine ⟨?_, hC, hR, ?_⟩
  · intro name h1 h2
    rw [h]
    apply List.count_eq_zero_of_not_mem
    intro hmem
    have := (List.mem_filter.mp hmem).2
    simp [isCurrent, h1, h2] at this
  · intro hnd
    rw [hC, hR]
    exact ⟨List.nodup_iff_count_le_one.mp hnd CACHE_NAME,
      List.nodup_iff_count_le_one.mp hnd RUNTIME_CACHE⟩

/-- Witness of C16: after an upgrade one precache store and no runtime store. -/
theorem activate_store_counts_witness :
    (cachesKeys afterUpgrade).Nodup ∧
    storeCount (activateListener afterUpgrade).caches "marabet-ai-v0.9.0" = 0 ∧
    storeCount (activateListener afterUpgrade).caches CACHE_NAME ≤ 1 :=
  ⟨by decide,
   (activate_store_counts afterUpgrade).1 "marabet-ai-v0.9.0" (by decide) (by decide),
   ((activate_store_counts afterUpgrade).2.2.2 (by decide)).1⟩

/-- C16 fails as stated: after a first install only the precache store exists,
and after the `activate` listener there is still no runtime store. -/
theorem activate_leaves_no_runtime_store :
    storeCount rootPrecached CACHE_NAME = 1 ∧
    storeCount (activateListener rootPrecached).caches CACHE_NAME = 1 ∧
    storeCount (activateListener rootPrecached).caches RUNTIME_CACHE = 0 ∧
    storeOf (activateListener rootPrecached).caches RUNTIME_CACHE = none := by
  refine ⟨by decide, by decide, by decide, by decide⟩

/-! ### Which listeners delete stores -/

/-- A put keeps the names of the stores. -/
theorem cachesKeys_storePut (cs : CacheStorage) (name : String) (k : RequestKey)
    (r : Response) : cachesKeys (storePut cs name k r) = cachesKeys cs := by
  unfold cachesKeys storePut
  induction cs with
  | nil => rfl
  | cons hd tl ih =>
    rw [List.map_cons, List.map_cons, List.map_cons, ih]
    by_cases h : hd.1 = name
    · rw [if_pos h]
    · rw [if_neg h]

/-- A batch of puts keeps the names of the stores. -/
theorem cachesKeys_putAll (cs : CacheStorage) (name : String)
    (entries : List (RequestKey × Response)) :
    cachesKeys (putAll cs name entries) = cachesKeys cs := by
  unfold putAll
  induction entries generalizing cs with
  | nil => rfl
  | cons e rest ih => rw [List.foldl_cons, ih, cachesKeys_storePut]

/-- Opening a store keeps every store there was. -/
theorem cachesKeys_cachesOpen (cs : CacheStorage) (name : String) :
    cachesKeys cs ⊆ cachesKeys (cachesOpen cs name) := by
  unfold cachesOpen
  cases storeOf cs name with
  | some c => exact List.Subset.refl _
  | none =>
    intro x hx
    simp only [cachesKeys, List.map_append, List.mem_append] at hx ⊢
    exact Or.inl hx

/-- A resolved `cache.addAll` is a batch of puts. -/
theorem cacheAddAll_ok (host : Host) (cs after : CacheStorage) (name : String)
    (urls : List String) (h : cacheAddAll host cs name urls = .ok after) :
    ∃ entries, after = putAll cs name entries := by
  unfold cacheAddAll at h
  cases he : addAllResponses host urls with
  | error e => simp [he] at h
  | ok entries =>
    simp only [he] at h
    by_cases hd : (entries.map (fun e => e.1)).Nodup
    · simp only [hd, if_true] at h
      cases hp : entries.findSome? (fun e => host.putErr name e.1) with
      | some e => simp [hp] at h
      | none =>
        simp only [hp] at h
        cases h
        exact ⟨entries, rfl⟩
    · simp [hd] at h

/-- Open then `addAll` keeps every store there was, resolved or rejected. -/
theorem cachesKeys_open_addAll (host : Host) (cs : CacheStorage) (name : String)
    (urls : List String) :
    cachesKeys cs ⊆ cachesKeys
      (match cacheAddAll host (cachesOpen cs name) name urls with
        | .ok populated => populated
        | .error _ => cachesOpen cs name) := by
  cases h : cacheAddAll host (cachesOpen cs name) name urls with
  | error e => exact cachesKeys_cachesOpen cs name
  | ok populated =>
    obtain ⟨entries, he⟩ := cacheAddAll_ok host _ populated name urls h
    simp only []
    rw [he, cachesKeys_putAll]
    exact cachesKeys_cachesOpen cs name

/-- The `install` listener keeps every store there was. -/
theorem cachesKeys_installListener (host : Host) (cs : CacheStorage) :
    cachesKeys cs ⊆ cachesKeys (installListener host cs).caches := by
  unfold installListener
  cases host.openErr CACHE_NAME with
  | some e => exact List.Subset.refl _
  | none =>
    have := cachesKeys_open_addAll host cs CACHE_NAME STATIC_ASSETS
    simp only []
    cases h : cacheAddAll host (cachesOpen cs CACHE_NAME) CACHE_NAME STATIC_ASSETS with
    | error e => simpa [h] using this
    | ok populated => simpa [h] using this

/-- The `fetch` listener keeps every store there was. -/
theorem cachesKeys_fetchListener (host : Host) (cs : CacheStorage) (request : Request) :
    cachesKeys cs ⊆ cachesKeys (fetchListener host cs request).caches := by
  have hwritten : ∀ r, cachesKeys cs ⊆ cachesKeys
      (storePut (cachesOpen cs RUNTIME_CACHE) RUNTIME_CACHE (requestKey request) r) := by
    intro r
    rw [cachesKeys_storePut]
    exact cachesKeys_cachesOpen cs RUNTIME_CACHE
  have hN : cachesKeys cs ⊆ cachesKeys (networkFirst host cs request).caches := by
    rcases networkFirst_caches host cs request with h | h | ⟨r, _, _, _, _, h⟩
    · rw [h]
      exact List.Subset.refl _
    · rw [h]
      exact cachesKeys_cachesOpen cs RUNTIME_CACHE
    · rw [h]
      exact hwritten r
  have hC : cachesKeys cs ⊆ cachesKeys (cacheFirst host cs request).caches := by
    rcases cacheFirst_caches host cs request with h | h | ⟨r, _, _, _, _, _, h⟩
    · rw [h]
      exact List.Subset.refl _
    · rw [h]
      exact cachesKeys_cachesOpen cs RUNTIME_CACHE
    · rw [h]
      exact hwritten r
  unfold fetchListener
  simp only []
  split_ifs
  · exact List.Subset.refl _
  · exact hN
  · exact hC
  · exact hN

/-- The `message` listener keeps every store there was, for a message of a type
other than `CLEAR_CACHE`. -/
theorem cachesKeys_messageListener (host : Host) (cs : CacheStorage)
    (data : MessageData) (hclear : data.type ≠ "CLEAR_CACHE") :
    cachesKeys cs ⊆ cachesKeys (messageListener host cs data).caches := by
  unfold messageListener
  simp only [hclear, if_false]
  by_cases hurls : data.type = "CACHE_URLS"
  · simp only [hurls, if_true]
    have hskip : ¬ ("CACHE_URLS" = "SKIP_WAITING") := by decide
    simp only [hskip, if_false]
    unfold cacheUrls
    cases host.openErr RUNTIME_CACHE with
    | some e => exact List.Subset.refl _
    | none =>
      have := cachesKeys_open_addAll host cs RUNTIME_CACHE data.urls
      simp only []
      cases h : cacheAddAll host (cachesOpen cs RUNTIME_CACHE) RUNTIME_CACHE data.urls with
      | error e => simpa [h] using this
      | ok populated => simpa [h] using this
  · simp only [hurls, if_false]
    split_ifs <;> exact List.Subset.refl _

/-- C17, as the code has it: besides `activate`, only a message of type
`CLEAR_CACHE` deletes stores. After the listener of any other event (install,
fetch, push, notificationclick, sync, periodicsync, a message of another type)
every store that existed before still exists. -/
theorem only_activate_and_clear_delete (host : Host) (cs : CacheStorage) (e : Event)
    (hactivate : e ≠ .activate)
    (hclear : ∀ data, e = .message data → data.type ≠ "CLEAR_CACHE") :
    cachesKeys cs ⊆ cachesKeys (storesAfter host cs e) := by
  cases e with
  | install => exact cachesKeys_installListener host cs
  | activate => exact absurd rfl hactivate
  | fetch request => exact cachesKeys_fetchListener host cs request
  | push text now => exact List.Subset.refl _
  | notificationclick action =>
    show cachesKeys cs ⊆ cachesKeys (notificationclickListener cs action).caches
    unfold notificationclickListener
    split_ifs <;> exact List.Subset.refl _
  | sync tag =>
    show cachesKeys cs ⊆ cachesKeys (syncListener host cs tag).caches
    unfold syncListener syncPredictions
    split_ifs
    · simp only []
      cases host.fetch (urlRequest host "/api/sync-predictions" "POST") <;>
        exact List.Subset.refl _
    · exact List.Subset.refl _
  | periodicsync tag =>
    show cachesKeys cs ⊆ cachesKeys (periodicsyncListener host cs tag).caches
    have hupdate : (updatePredictions host cs).caches = cs := by
      unfold updatePredictions
      simp only []
      cases host.fetch (urlRequest host "/api/predictions/today" "GET") with
      | error e => rfl
      | ok response =>
        simp only []
        cases host.json response.body with
        | syntaxError reason => rfl
        | nullData => rfl
        | absent => rfl
        | count n => simp only []; split_ifs <;> rfl
        | other positive text => simp only []; split_ifs <;> rfl
    unfold periodicsyncListener
    split_ifs
    · simp only [hupdate]
      exact List.Subset.refl _
    · exact List.Subset.refl _
  | message data => exact cachesKeys_messageListener host cs data (hclear data rfl)

/-- Witness of C17: a `CACHE_URLS` message keeps both stores. -/
theorem only_activate_and_clear_delete_witness :
    cachesKeys twoCopies ⊆ cachesKeys
      (storesAfter (hostWith (fun _ => .ok okResponse)) twoCopies
        (.message { type := "CACHE_URLS", urls := ["/static/css/responsive.css"] })) :=
  only_activate_and_clear_delete (hostWith (fun _ => .ok okResponse)) twoCopies
    (.message { type := "CACHE_URLS", urls := ["/static/css/responsive.css"] })
    (by decide) (fun data h => by cases h; decide)

/-- C17 fails as stated: a message of type `CLEAR_CACHE` deletes every store,
the current precache store and the current runtime store included. -/
theorem clear_cache_message_deletes_stores :
    cachesKeys twoCopies = [CACHE_NAME, RUNTIME_CACHE] ∧
    storesAfter (hostDown "offline") twoCopies
      (.message { type := "CLEAR_CACHE", urls := [] }) = [] := by
  refine ⟨by decide, by decide⟩

/-! ### Background sync -/

/-- C18: for the tag `sync-predictions` the `sync` listener makes exactly one
network call, the POST to `/api/sync-predictions`, and when that call rejects
with an error the promise handed to `waitUntil` rejects with the same error
(it resolves when the call completes); for any other tag it makes no network
call and hands nothing to `waitUntil`. -/
theorem sync_posts_once_and_rethrows (host : Host) (cs : CacheStorage) (tag : String) :
    (tag = "sync-predictions" →
      networkCalls (syncListener host cs tag).trace = 1 ∧
      Effect.fetch (urlRequest host "/api/sync-predictions" "POST") ∈
        (syncListener host cs tag).trace ∧
      (urlRequest host "/api/sync-predictions" "POST").method = "POST" ∧
      (∀ error, host.fetch (urlRequest host "/api/sync-predictions" "POST") = .error error →
        (syncListener host cs tag).waitUntil = [.error error]) ∧
      (∀ response, host.fetch (urlRequest host "/api/sync-predictions" "POST") = .ok response →
        (syncListener host cs tag).waitUntil = [.ok ()])) ∧
    (tag ≠ "sync-predictions" →
      networkCalls (syncListener host cs tag).trace = 0 ∧
      (syncListener host cs tag).waitUntil = []) := by
  constructor
  · intro htag
    unfold syncListener syncPredictions
    simp only [htag, if_true]
    cases hf : host.fetch (urlRequest host "/api/sync-predictions" "POST") with
    | error e =>
      refine ⟨by simp [networkCalls], by simp, rfl, ?_, ?_⟩
      · intro error herr
        cases herr
        rfl
      · intro response hr
        cases hr
    | ok r =>
      refine ⟨?_, ?_, rfl, ?_, ?_⟩
      · by_cases hok : responseOk r = true
        · simp [networkCalls, hok]
        · simp [networkCalls, hok]
      · by_cases hok : responseOk r = true
        · simp [hok]
        · simp [hok]
      · intro error herr
        cases herr
      · intro response _
        rfl
  · intro htag
    unfold syncListener
    simp [htag, networkCalls]

/-- Witness of C18: the network is down when the tag fires. -/
theorem sync_posts_once_and_rethrows_witness :
    networkCalls (syncListener (hostDown "NetworkError") [] "sync-predictions").trace = 1 ∧
    (syncListener (hostDown "NetworkError") [] "sync-predictions").waitUntil =
      [.error "NetworkError"] ∧
    networkCalls (syncListener (hostDown "NetworkError") [] "sync-other").trace = 0 :=
  ⟨((sync_posts_once_and_rethrows (hostDown "NetworkError") [] "sync-predictions").1 rfl).1,
   ((sync_posts_once_and_rethrows (hostDown "NetworkError") [] "sync-predictions").1
      rfl).2.2.2.1 "NetworkError" rfl,
   ((sync_posts_once_and_rethrows (hostDown "NetworkError") [] "sync-other").2
      (by decide)).1⟩

/-! ### Periodic refresh -/

/-- C19: the promise of `updatePredictions` resolves for every outcome of the
GET: a rejected network call, a body `json()` rejects, data that is `null`,
data without `new_predictions`, any count; so the promise the `periodicsync`
listener hands to `waitUntil` resolves as well. -/
theorem updatePredictions_never_rejects (host : Host) (cs : CacheStorage) :
    (updatePredictions host cs).result = .ok () ∧
    (periodicsyncListener host cs "update-predictions").waitUntil = [.ok ()] := by
  have h : (updatePredictions host cs).result = .ok () := by
    unfold updatePredictions
    simp only []
    cases host.fetch (urlRequest host "/api/predictions/today" "GET") with
    | error e => rfl
    | ok response =>
      simp only []
      cases host.json response.body with
      | syntaxError reason => rfl
      | nullData => rfl
      | absent => rfl
      | count n => simp only []; split_ifs <;> rfl
      | other positive text => simp only []; split_ifs <;> rfl
  exact ⟨h, by simp [periodicsyncListener, h]⟩

/-- C20, as the code has it: when `/api/predictions/today` answers with the
integer `n` as `new_predictions`, `updatePredictions` shows one notification,
titled `MaraBet AI`, if `n > 0`, and none if `n ≤ 0`; its body is the text of
the number followed by ` novas previsões disponíveis!`, which for `n` below
2^53 is `n` in decimal digits. When the fetch rejects it shows none. -/
theorem updatePredictions_notifies_iff_positive (host : Host) (cs : CacheStorage) :
    (∀ response n,
      host.fetch (urlRequest host "/api/predictions/today" "GET") = .ok response →
      host.json response.body = .count n →
      (0 < n →
        notifications (updatePredictions host cs).trace =
          [("MaraBet AI", predictionsNotification (numberText host n))]) ∧
      (0 < n → n < 2 ^ 53 →
        notifications (updatePredictions host cs).trace =
          [("MaraBet AI", predictionsNotification (toString n))] ∧
        (predictionsNotification (toString n)).body =
          toString n ++ " novas previsões disponíveis!") ∧
      (n ≤ 0 → notifications (updatePredictions host cs).trace = [])) ∧
    (∀ error,
      host.fetch (urlRequest host "/api/predictions/today" "GET") = .error error →
      notifications (updatePredictions host cs).trace = []) := by
  constructor
  · intro response n hf hj
    have hshown : 0 < n → notifications (updatePredictions host cs).trace =
        [("MaraBet AI", predictionsNotification (numberText host n))] := by
      intro hpos
      simp [updatePredictions, hf, hj, hpos, notifications]
    refine ⟨hshown, ?_, ?_⟩
    · intro hpos hsmall
      have habs : n.natAbs < 2 ^ 53 := by omega
      have htext : numberText host n = toString n := by
        unfold numberText
        rw [if_pos habs]
      rw [hshown hpos, htext]
      exact ⟨rfl, rfl⟩
    · intro hneg
      have : ¬ (n > 0) := not_lt.mpr hneg
      simp [updatePredictions, hf, hj, this, notifications]
  · intro error hf
    simp [updatePredictions, hf, notifications]

/-- Witness of C20: three new predictions, none, a negative count, and the
network down. -/
theorem updatePredictions_notifies_iff_positive_witness :
    notifications (updatePredictions (hostAnswering "\x7b\"new_predictions\": 3\x7d") []).trace =
      [("MaraBet AI",
        { body := "3 novas previsões disponíveis!",
          icon := "/static/images/icon-192x192.png",
          badge := "/static/images/badge-72x72.png",
          vibrate := [], data := none, actions := [] })] ∧
    notifications (updatePredictions (hostAnswering "\x7b\"new_predictions\": 0\x7d") []).trace =
      [] ∧
    notifications (updatePredictions (hostAnswering "\x7b\"new_predictions\": -2\x7d") []).trace =
      [] ∧
    notifications (updatePredictions (hostDown "NetworkError") []).trace = [] :=
  ⟨(((updatePredictions_notifies_iff_positive
        (hostAnswering "\x7b\"new_predictions\": 3\x7d") []).1 _ 3 rfl (by decide)).2.1
      (by decide) (by decide)).1,
   ((updatePredictions_notifies_iff_positive
        (hostAnswering "\x7b\"new_predictions\": 0\x7d") []).1 _ 0 rfl (by decide)).2.2
      (by decide),
   ((updatePredictions_notifies_iff_positive
        (hostAnswering "\x7b\"new_predictions\": -2\x7d") []).1 _ (-2) rfl (by decide)).2.2
      (by decide),
   (updatePredictions_notifies_iff_positive (hostDown "NetworkError") []).2
      "NetworkError" rfl⟩

/-- C20 fails as stated: the server answers `new_predictions` = 10^21, an
integer, and the notification shown has the body
`1e+21 novas previsões disponíveis!`, not the count in digits. -/
theorem updatePredictions_large_count_body :
    exampleJson "\x7b\"new_predictions\": 1000000000000000000000\x7d" =
      .count 1000000000000000000000 ∧
    (notifications (updatePredictions
      (hostAnswering "\x7b\"new_predictions\": 1000000000000000000000\x7d") []).trace).map
      (fun shown => shown.2.body) = ["1e+21 novas previsões disponíveis!"] ∧
    "1e+21 novas previsões disponíveis!" ≠
      toString (1000000000000000000000 : Int) ++ " novas previsões disponíveis!" := by
  refine ⟨by decide, by decide, by decide⟩

/-! ### Notifications -/

/-- C21: the `push` listener shows one notification, titled `MaraBet AI`, whose
body is the text of the payload when the event has one and
`Nova notificação do MaraBet AI` when it has none, and whose actions are
`explore` then `close`, whatever the payload. -/
theorem push_notification_body_and_actions (cs : CacheStorage) (now : Nat) :
    (∀ text, notifications (pushListener cs (some text) now).trace =
        [("MaraBet AI", pushOptions (some text) now)] ∧
      (pushOptions (some text) now).body = text) ∧
    (notifications (pushListener cs none now).trace =
        [("MaraBet AI", pushOptions none now)] ∧
      (pushOptions none now).body = "Nova notificação do MaraBet AI") ∧
    (∀ payload, (pushOptions payload now).actions.map (fun a => a.action) =
      ["explore", "close"]) := by
  refine ⟨fun text => ⟨rfl, rfl⟩, ⟨rfl, rfl⟩, fun payload => rfl⟩

/-- C22: the `notificationclick` listener, after its log line, closes the
notification first; it then opens the window `/` when the action is `explore`
and opens nothing for any other action, `close` and the empty action of a click
on the body included. -/
theorem notificationclick_closes_then_explores (cs : CacheStorage) (action : String) :
    (action = "explore" →
      withoutConsole (notificationclickListener cs action).trace =
        [.notificationClose, .openWindow "/"] ∧
      navigations (notificationclickListener cs action).trace = ["/"]) ∧
    (action ≠ "explore" →
      withoutConsole (notificationclickListener cs action).trace = [.notificationClose] ∧
      navigations (notificationclickListener cs action).trace = []) ∧
    (navigations (notificationclickListener cs action).trace).length ≤ 1 ∧
    (withoutConsole (notificationclickListener cs action).trace).head? =
      some .notificationClose := by
  by_cases h : action = "explore"
  · simp [notificationclickListener, h, withoutConsole, navigations]
  · simp [notificationclickListener, h, withoutConsole, navigations]

/-- Witness of C22: the `explore` action, the `close` action, a click on the
body. -/
theorem notificationclick_closes_then_explores_witness :
    navigations (notificationclickListener [] "explore").trace = ["/"] ∧
    navigations (notificationclickListener [] "close").trace = [] ∧
    withoutConsole (notificationclickListener [] "").trace = [.notificationClose] :=
  ⟨((notificationclick_closes_then_explores [] "explore").1 rfl).2,
   ((notificationclick_closes_then_explores [] "close").2.1 (by decide)).2,
   ((notificationclick_closes_then_explores [] "").2.1 (by decide)).1⟩

/-! ### The `CLEAR_CACHE` message -/

/-- Deleting every name of `caches.keys()` leaves no store. -/
theorem foldl_cachesDelete_keys (cs : CacheStorage) :
    (cachesKeys cs).foldl cachesDelete cs = [] := by
  rw [foldl_cachesDelete, List.filter_eq_nil_iff]
  intro s hs
  have hkey : s.1 ∈ cachesKeys cs := List.mem_map_of_mem _ hs
  simp [hkey]

/-- C28: after a message of type `CLEAR_CACHE` no store exists, whatever stores
existed: the current precache store and the current runtime store are gone and
`caches.match('/offline.html')` finds nothing. -/
theorem clear_cache_deletes_every_store (host : Host) (cs : CacheStorage)
    (urls : List String) :
    (messageListener host cs { type := "CLEAR_CACHE", urls := urls }).caches = [] ∧
    storeOf (messageListener host cs { type := "CLEAR_CACHE", urls := urls }).caches
      CACHE_NAME = none ∧
    storeOf (messageListener host cs { type := "CLEAR_CACHE", urls := urls }).caches
      RUNTIME_CACHE = none ∧
    cachesMatch (messageListener host cs { type := "CLEAR_CACHE", urls := urls }).caches
      (offlineKey host) = none := by
  have h : (messageListener host cs { type := "CLEAR_CACHE", urls := urls }).caches = [] := by
    have h1 : ¬ ("CLEAR_CACHE" = "SKIP_WAITING") := by decide
    have h2 : ¬ ("CLEAR_CACHE" = "CACHE_URLS") := by decide
    simp only [messageListener, h1, h2, if_false, if_true, clearCache]
    exact foldl_cachesDelete_keys cs
  rw [h]
  exact ⟨rfl, rfl, rfl, rfl⟩

/-! ### `syncPredictions` and takeover -/

/-- C29: `syncPredictions` resolves whenever the POST completes with a
response, whatever its status, and rejects, with the error of the call, exactly
when the call rejects. -/
theorem syncPredictions_rejects_iff_fetch_rejects (host : Host) (cs : CacheStorage) :
    (∀ response, host.fetch (urlRequest host "/api/sync-predictions" "POST") = .ok response →
      (syncPredictions host cs).result = .ok ()) ∧
    (∀ error, host.fetch (urlRequest host "/api/sync-predictions" "POST") = .error error →
      (syncPredictions host cs).result = .error error) ∧
    ((∃ reason, (syncPredictions host cs).result = .error reason) ↔
      ∃ error, host.fetch (urlRequest host "/api/sync-predictions" "POST") = .error error) := by
  cases hf : host.fetch (urlRequest host "/api/sync-predictions" "POST") with
  | error e => simp [syncPredictions, hf]
  | ok r => simp [syncPredictions, hf]

/-- Witness of C29: the server answers the POST with status 500. -/
theorem syncPredictions_rejects_iff_fetch_rejects_witness :
    serverErrorResponse.status = 500 ∧
    (syncPredictions (hostWith (fun _ => .ok serverErrorResponse)) []).result = .ok () ∧
    (syncPredictions (hostDown "NetworkError") []).result = .error "NetworkError" :=
  ⟨rfl,
   (syncPredictions_rejects_iff_fetch_rejects
      (hostWith (fun _ => .ok serverErrorResponse)) []).1 serverErrorResponse rfl,
   (syncPredictions_rejects_iff_fetch_rejects (hostDown "NetworkError") []).2.1
      "NetworkError" rfl⟩

/-- The calls of `cache.addAll` hold no `skipWaiting`. -/
theorem skipWaiting_not_mem_addAllTrace (host : Host) (name : String) (urls : List String) :
    Effect.skipWaiting ∉ addAllTrace host name urls := by
  simp [addAllTrace]

/-- C30: the `install` listener calls `skipWaiting` exactly when the population
of the precache store succeeds, that is when `caches.open` and `cache.addAll`
resolve; the call is the last of the listener. When the population fails it
does not call `skipWaiting`. -/
theorem install_skipWaiting_iff_populated (host : Host) (cs : CacheStorage) :
    (Effect.skipWaiting ∈ (installListener host cs).trace ↔
      (host.openErr CACHE_NAME = none ∧
        ∃ populated, cacheAddAll host (cachesOpen cs CACHE_NAME) CACHE_NAME STATIC_ASSETS =
          .ok populated)) ∧
    (Effect.skipWaiting ∈ (installListener host cs).trace →
      ∃ before, (installListener host cs).trace = before ++ [.skipWaiting]) := by
  have hno := skipWaiting_not_mem_addAllTrace host CACHE_NAME STATIC_ASSETS
  unfold installListener
  cases ho : host.openErr CACHE_NAME with
  | some e => simp
  | none =>
    simp only []
    cases ha : cacheAddAll host (cachesOpen cs CACHE_NAME) CACHE_NAME STATIC_ASSETS with
    | error e => simp [hno]
    | ok populated =>
      refine ⟨by simp, fun _ => ?_⟩
      exact ⟨[.console "[Service Worker] Instalando..." "", .cachesOpen CACHE_NAME] ++
        .console "[Service Worker] Fazendo cache dos assets estáticos" "" ::
          addAllTrace host CACHE_NAME STATIC_ASSETS ++
        [.console "[Service Worker] Instalação concluída" ""], by simp⟩

/-! ### What the dispatcher answers offline -/

/-- The listener on a request whose URL starts with `http`, by its route. -/
theorem fetchListener_of_http (host : Host) (cs : CacheStorage) (request : Request)
    (h : startsWith request.url "http" = true) :
    fetchListener host cs request =
      if routesToCacheFirst host request = true then
        respondWith .cacheFirst (cacheFirst host cs request)
      else respondWith .networkFirst (networkFirst host cs request) := by
  unfold fetchListener routesToCacheFirst
  simp only [h, Bool.not_true, Bool.false_eq_true, if_false]
  by_cases hapi : startsWith (host.pathname request.url) "/api/" = true
  · simp [hapi]
  · have hapi2 : startsWith (host.pathname request.url) "/api/" = false := by
      simpa using hapi
    simp only [hapi2, Bool.false_eq_true, if_false, Bool.not_false, Bool.true_and]

/-- A rejected put loses nothing: with a status-200 answer and the store open,
both strategies resolve with the network's response. -/
theorem put_failure_returns_response (host : Host) (cs : CacheStorage)
    (request : Request) (r : Response) (reason : String)
    (hnet : host.fetch request = .ok r) (h200 : r.status = 200)
    (hopen : host.openErr RUNTIME_CACHE = none)
    (hput : host.putErr RUNTIME_CACHE (requestKey request) = some reason) :
    (networkFirst host cs request).result = .ok r ∧
    snapshots (networkFirst host cs request).caches = snapshots cs ∧
    (cachesMatch cs (requestKey request) = none →
      (cacheFirst host cs request).result = .ok r) := by
  refine ⟨?_, ?_, ?_⟩
  · simp [networkFirst, hnet, h200, hopen]
  · have : (networkFirst host cs request).caches = cachesOpen cs RUNTIME_CACHE := by
      simp [networkFirst, hnet, h200, hopen, writeThrough, hput]
    rw [this, snapshots_cachesOpen]
  · intro hc
    simp [cacheFirst, hc, hnet, h200, hopen]

/-- C23, at the failing inputs: the network answers with a status-200 response
and `caches.open` rejects; `networkFirst` answers the navigation with the
cached offline page and `cacheFirst` answers the image request with the
placeholder, neither with the network's response. When it is the put that
rejects, both return the network's response. -/
theorem cache_open_failure_is_fatal :
    (hostOpenFails okResponse).fetch pageRequest = .ok okResponse ∧
    (networkFirst (hostOpenFails okResponse) offlinePrecached pageRequest).result =
      .ok oldResponse ∧
    (networkFirst (hostOpenFails okResponse) offlinePrecached pageRequest).result ≠
      .ok okResponse ∧
    (cacheFirst (hostOpenFails okResponse) offlinePrecached imageRequest).result =
      .ok placeholderResponse ∧
    (cacheFirst (hostOpenFails okResponse) offlinePrecached imageRequest).result ≠
      .ok okResponse ∧
    (networkFirst (hostPutFails okResponse) offlinePrecached pageRequest).result =
      .ok okResponse ∧
    (cacheFirst (hostPutFails okResponse) offlinePrecached imageRequest).result =
      .ok okResponse := by
  refine ⟨rfl, by decide, by decide, rfl, ?_, by decide, by decide⟩
  intro h
  have h2 : placeholderResponse = okResponse := Except.ok.inj h
  have h3 := congrArg Response.statusText h2
  revert h3
  decide

/-- C24, as the code has it: for an http(s) request with destination `image`
whose network call fails and whose key no store holds, the listener answers
with the SVG placeholder when the path is not under `/api/`; when it is, the
request goes to `networkFirst`, which answers with its 503 response (the
request not being a navigation). -/
theorem image_placeholder_outside_api (host : Host) (cs : CacheStorage)
    (request : Request) (e : String)
    (hscheme : schemeOf request.url = "http" ∨ schemeOf request.url = "https")
    (himage : request.destination = "image")
    (hnet : host.fetch request = .error e)
    (hmiss : cachesMatch cs (requestKey request) = none) :
    (startsWith (host.pathname request.url) "/api/" = false →
      (fetchListener host cs request).responded =
        [(.cacheFirst, .ok placeholderResponse)]) ∧
    (startsWith (host.pathname request.url) "/api/" = true →
      request.mode ≠ "navigate" →
      (fetchListener host cs request).responded =
        [(.networkFirst, .ok unavailableResponse)]) := by
  have hs := startsWith_http_of_scheme request.url hscheme
  rw [fetchListener_of_http host cs request hs]
  constructor
  · intro hapi
    have hr : routesToCacheFirst host request = true := by
      simp [routesToCacheFirst, hapi, himage]
    simp [hr, respondWith, cacheFirst, hmiss, hnet, cacheFirstCatch, himage]
  · intro hapi hmode
    have hr : routesToCacheFirst host request = false := by
      simp [routesToCacheFirst, hapi]
    simp [hr, respondWith, networkFirst, hnet, networkFirstCatch, hmiss, hmode]

/-- Witness of C24: an image of another origin, offline, nothing cached. -/
theorem image_placeholder_outside_api_witness :
    imageRequest.destination = "image" ∧
    (fetchListener (hostDown "offline") [] imageRequest).responded =
      [(.cacheFirst, .ok placeholderResponse)] :=
  ⟨rfl,
   (image_placeholder_outside_api (hostDown "offline") [] imageRequest "offline"
      (by decide) rfl rfl rfl).1 (by decide)⟩

/-- C24 fails as stated: an image under `/api/`, offline with nothing cached,
is answered by `networkFirst` with the 503 response. -/
theorem api_image_gets_unavailable :
    apiImageRequest.destination = "image" ∧
    schemeOf apiImageRequest.url = "https" ∧
    (hostDown "offline").fetch apiImageRequest = .error "offline" ∧
    cachesMatch [] (requestKey apiImageRequest) = none ∧
    (fetchListener (hostDown "offline") [] apiImageRequest).responded =
      [(.networkFirst, .ok unavailableResponse)] ∧
    unavailableResponse.status = 503 := by
  refine ⟨rfl, by decide, rfl, rfl, by decide, rfl⟩

/-- C25, as the code has it: for an http(s) navigation whose network call fails
and whose key no store holds, with `/offline.html` cached, the listener answers
with the offline page when the request goes to `networkFirst`; a navigation
that goes to `cacheFirst` (its path under `/static/`) is answered with the 503
response of `cacheFirst`. -/
theorem navigation_offline_by_route (host : Host) (cs : CacheStorage)
    (request : Request) (e : String) (page : Response)
    (hscheme : schemeOf request.url = "http" ∨ schemeOf request.url = "https")
    (hmode : request.mode = "navigate")
    (hnet : host.fetch request = .error e)
    (hmiss : cachesMatch cs (requestKey request) = none)
    (hoffline : cachesMatch cs (offlineKey host) = some page) :
    (routesToCacheFirst host request = false →
      (fetchListener host cs request).responded = [(.networkFirst, .ok page)]) ∧
    (routesToCacheFirst host request = true → request.destination ≠ "image" →
      (fetchListener host cs request).responded =
        [(.cacheFirst, .ok offlineResponse)]) := by
  have hs := startsWith_http_of_scheme request.url hscheme
  rw [fetchListener_of_http host cs request hs]
  constructor
  · intro hr
    simp [hr, respondWith, networkFirst, hnet, networkFirstCatch, hmiss, hmode, hoffline]
  · intro hr himage
    simp [hr, respondWith, cacheFirst, hmiss, hnet, cacheFirstCatch, himage]

/-- Witness of C25: a page outside `/static/`, offline, the offline page
precached. -/
theorem navigation_offline_by_route_witness :
    pageRequest.mode = "navigate" ∧
    cachesMatch offlinePrecached (offlineKey (hostDown "offline")) = some oldResponse ∧
    (fetchListener (hostDown "offline") offlinePrecached pageRequest).responded =
      [(.networkFirst, .ok oldResponse)] :=
  ⟨rfl, by decide,
   (navigation_offline_by_route (hostDown "offline") offlinePrecached pageRequest
      "offline" oldResponse (by decide) rfl rfl (by decide) (by decide)).1 (by decide)⟩

/-- C25 fails as stated: a navigation to a document under `/static/`, offline
with the offline page precached, is answered by `cacheFirst` with its 503
response. -/
theorem static_navigation_gets_unavailable :
    staticPageRequest.mode = "navigate" ∧
    schemeOf staticPageRequest.url = "https" ∧
    (hostDown "offline").fetch staticPageRequest = .error "offline" ∧
    cachesMatch offlinePrecached (requestKey staticPageRequest) = none ∧
    cachesMatch offlinePrecached (offlineKey (hostDown "offline")) = some oldResponse ∧
    (fetchListener (hostDown "offline") offlinePrecached staticPageRequest).responded =
      [(.cacheFirst, .ok offlineResponse)] ∧
    offlineResponse.status = 503 := by
  refine ⟨rfl, by decide, rfl, by decide, by decide, by decide, rfl⟩

/-! ### Precached entries offline -/

/-- A batch of puts on the named store leaves the stores created before it as
they were. -/
theorem earlierStores_putAll (cs : CacheStorage) (name : String)
    (entries : List (RequestKey × Response)) :
    earlierStores (putAll cs name entries) name = earlierStores cs name := by
  unfold putAll
  induction entries generalizing cs with
  | nil => rfl
  | cons e rest ih => rw [List.foldl_cons, ih, earlierStores_storePut]

/-- The stores created before the named one, after a filter on names that keeps
that name. -/
theorem earlierStores_filter (cs : CacheStorage) (p : String → Bool) (name : String)
    (hp : p name = true) :
    earlierStores (cs.filter (fun s => p s.1)) name =
      (earlierStores cs name).filter (fun s => p s.1) := by
  unfold earlierStores
  induction cs with
  | nil => rfl
  | cons hd tl ih =>
    obtain ⟨n, c⟩ := hd
    by_cases hn : n = name
    · subst hn
      simp [List.filter_cons, hp, List.takeWhile]
    · have hb : (n != name) = true := by simpa using hn
      by_cases hpn : p n = true
      · simp only [List.filter_cons, hpn, if_true, List.takeWhile_cons, hb]
        rw [ih]
      · have hpn2 : p n = false := by simpa using hpn
        simp only [List.filter_cons, hpn2, Bool.false_eq_true, if_false,
          List.takeWhile_cons, hb, if_true]
        exact ih

/-- C26, as the code has it: after an `install` whose population succeeds and
the `activate` that follows, a GET request for a manifest entry that arrives
while the network is unreachable is answered, by either strategy, with the
snapshot precached for the entry when no runtime store created before the
precache store holds the same key; when one does, the request is answered with
that store's snapshot. -/
theorem precached_entry_served_offline (host later : Host) (cs : CacheStorage)
    (url : String) (r : Response) (request : Request) (e : String)
    (hreach : ∀ u ∈ STATIC_ASSETS, reachable host u = true)
    (hdistinct : (manifestKeys host).Nodup)
    (hopen : host.openErr CACHE_NAME = none)
    (hput : ∀ u ∈ STATIC_ASSETS,
      host.putErr CACHE_NAME (requestKey (urlRequest host u "GET")) = none)
    (hurl : url ∈ STATIC_ASSETS)
    (hfetched : host.fetch (urlRequest host url "GET") = .ok r)
    (hmethod : request.method = "GET")
    (hrequest : withoutFragment request.url = withoutFragment (host.resolve url))
    (hscheme : schemeOf request.url = "http" ∨ schemeOf request.url = "https")
    (hdown : later.fetch request = .error e) :
    storeSnapshot (activateListener (installListener host cs).caches).caches CACHE_NAME
      (requestKey request) = some r ∧
    (cachesMatch (earlierCurrent cs) (requestKey request) = none →
      (fetchListener later (activateListener (installListener host cs).caches).caches
        request).responded.map Prod.snd = [.ok r]) ∧
    (∀ old, cachesMatch (earlierCurrent cs) (requestKey request) = some old →
      (fetchListener later (activateListener (installListener host cs).caches).caches
        request).responded.map Prod.snd = [.ok old]) := by
  obtain ⟨entries, hcs, hsnap⟩ :=
    installListener_caches_of_success host cs hreach hdistinct hopen hput
  have hkey : requestKey request = requestKey (urlRequest host url "GET") := by
    simp [requestKey, urlRequest, hmethod, hrequest]
  have hcurrent : isCurrent CACHE_NAME = true := by decide
  have hstore : storeOf (activateListener (installListener host cs).caches).caches CACHE_NAME =
      storeOf (putAll (cachesOpen cs CACHE_NAME) CACHE_NAME entries) CACHE_NAME := by
    rw [activateListener_caches, storeOf_filter _ isCurrent CACHE_NAME, hcs]
    simp [hcurrent]
  have hsnap2 : storeSnapshot (activateListener (installListener host cs).caches).caches
      CACHE_NAME (requestKey request) = some r := by
    have := hsnap url hurl r hfetched
    unfold storeSnapshot at this ⊢
    rw [hstore, hkey]
    exact this
  have hearly : earlierStores (activateListener (installListener host cs).caches).caches
      CACHE_NAME = earlierCurrent cs := by
    rw [activateListener_caches, earlierStores_filter _ isCurrent CACHE_NAME hcurrent, hcs,
      earlierStores_putAll, earlierStores_cachesOpen]
    rfl
  have hs := startsWith_http_of_scheme request.url hscheme
  have hanswer : ∀ found,
      cachesMatch (activateListener (installListener host cs).caches).caches
        (requestKey request) = some found →
      (fetchListener later (activateListener (installListener host cs).caches).caches
        request).responded.map Prod.snd = [.ok found] := by
    intro found hmatch
    rw [fetchListener_of_http later _ request hs]
    by_cases hr : routesToCacheFirst later request = true
    · simp [hr, respondWith, cacheFirst, hmatch]
    · simp [hr, respondWith, networkFirst, hdown, networkFirstCatch, hmatch]
  refine ⟨hsnap2, ?_, ?_⟩
  · intro hfirst
    apply hanswer
    unfold storeSnapshot at hsnap2
    cases hc : storeOf (activateListener (installListener host cs).caches).caches
        CACHE_NAME with
    | none => simp [hc] at hsnap2
    | some c =>
      simp only [hc] at hsnap2
      apply cachesMatch_eq_of_earlier_none _ CACHE_NAME _ c r _ hc hsnap2
      rw [hearly]
      exact hfirst
  · intro old hold
    apply hanswer
    apply cachesMatch_of_earlier_some _ CACHE_NAME
    rw [hearly]
    exact hold

/-- Witness of C26: the start page, asked for as `/#top`, after an upgrade from
version 0.9.0. -/
theorem precached_entry_served_offline_witness :
    (∀ u ∈ STATIC_ASSETS, reachable (hostWith (fun _ => .ok okResponse)) u = true) ∧
    (manifestKeys (hostWith (fun _ => .ok okResponse))).Nodup ∧
    withoutFragment topRequest.url =
      withoutFragment ((hostWith (fun _ => .ok okResponse)).resolve "/") ∧
    (hostDown "offline").fetch topRequest = .error "offline" ∧
    cachesMatch (earlierCurrent afterUpgrade) (requestKey topRequest) = none ∧
    (fetchListener (hostDown "offline")
      (activateListener
        (installListener (hostWith (fun _ => .ok okResponse)) afterUpgrade).caches).caches
      topRequest).responded.map Prod.snd = [.ok okResponse] :=
  ⟨by decide, by decide, by decide, rfl, by decide,
   (precached_entry_served_offline (hostWith (fun _ => .ok okResponse))
      (hostDown "offline") afterUpgrade "/" okResponse topRequest "offline"
      (by decide) (by decide) rfl (fun _ _ => rfl) (by decide) rfl rfl (by decide)
      (by decide) rfl).2.1 (by decide)⟩

/-- C26 fails as stated: the runtime store exists before the precache store and
holds a copy of the start page; the install succeeds and precaches the fresh
start page, `activate` keeps both stores, and the request for `/` that arrives
offline is answered with the runtime store's copy, not the precached one. -/
theorem precached_entry_shadowed_by_runtime :
    (∀ u ∈ STATIC_ASSETS, reachable (hostWith (fun _ => .ok okResponse)) u = true) ∧
    (manifestKeys (hostWith (fun _ => .ok okResponse))).Nodup ∧
    storeSnapshot
      (activateListener
        (installListener (hostWith (fun _ => .ok okResponse)) runtimeFirst).caches).caches
      CACHE_NAME (requestKey rootRequest) = some okResponse ∧
    (fetchListener (hostDown "offline")
      (activateListener
        (installListener (hostWith (fun _ => .ok okResponse)) runtimeFirst).caches).caches
      rootRequest).responded = [(.networkFirst, .ok oldResponse)] ∧
    oldResponse ≠ okResponse := by
  refine ⟨by decide, by decide, by decide, by decide, by decide⟩

/-- Witness of C30: an install with every entry answered ends in `skipWaiting`,
an install whose offline page is unreachable does not call it. -/
theorem install_skipWaiting_iff_populated_witness :
    Effect.skipWaiting ∈ (installListener (hostWith (fun _ => .ok okResponse)) []).trace ∧
    Effect.skipWaiting ∉ (installListener (hostMissing "/offline.html") []).trace :=
  ⟨(install_skipWaiting_iff_populated (hostWith (fun _ => .ok okResponse)) []).1.mpr
     ⟨rfl, _, rfl⟩,
   fun h =>
     match ((install_skipWaiting_iff_populated (hostMissing "/offline.html") []).1.mp h).2 with
     | ⟨_, hp⟩ => by
       have hfail : cacheAddAll (hostMissing "/offline.html") (cachesOpen [] CACHE_NAME)
           CACHE_NAME STATIC_ASSETS = .error "TypeError: Failed to fetch" := by decide
       rw [hfail] at hp
       cases hp⟩

end SW

/-! ### `getCredentials` -/

namespace DbConfig

/-- With credentials stored and no call suspended, whatever happens next every
call returns the stored object, `getSecret` is not called and the run stays as
it is. -/
theorem runSteps_of_stored (run : Run) (credentials : CredentialsObject)
    (hidle : run.waiting = []) (hstored : run.config.credentials = some credentials)
    (steps : List Step) :
    (runSteps run steps).1 = run ∧
    ∀ result ∈ (runSteps run steps).2, result = .ok credentials := by
  induction steps with
  | nil => simp [runSteps]
  | cons s rest ih =>
    cases s with
    | call =>
      have hstep : step run .call = (run, some (.ok credentials)) := by
        simp [step, getCredentialsBegin, hstored]
      simp only [runSteps, hstep]
      refine ⟨ih.1, ?_⟩
      intro result hmem
      rcases List.mem_cons.mp hmem with h | h
      · exact h
      · exact ih.2 result h
    | settle call outcome =>
      have hstep : step run (.settle call outcome) = (run, none) := by
        simp [step, getCredentialsResume, hidle]
      simp only [runSteps, hstep]
      exact ih

/-- C27, as the code has it: after a call of `getCredentials` made with no other
call in progress has resolved, every later call returns the same object and
`getSecret` is called no more, whatever is called or settles afterwards; a
call that rejects (its `getSecret` failed) leaves the object as it was, with
nothing stored, so that the next call calls `getSecret` again. -/
theorem getCredentials_alone_caches (run : Run) (outcome : SecretOutcome)
    (hidle : run.waiting = []) :
    (∀ credentials, (getCredentials run outcome).2 = some (.ok credentials) →
      ∀ steps,
        (runSteps (getCredentials run outcome).1 steps).1.secretCalls =
          (getCredentials run outcome).1.secretCalls ∧
        ∀ result ∈ (runSteps (getCredentials run outcome).1 steps).2,
          result = .ok credentials) ∧
    (∀ error, (getCredentials run outcome).2 = some (.error error) →
      (getCredentials run outcome).1.config = run.config ∧
      run.config.credentials = none ∧
      (getCredentialsBegin (getCredentials run outcome).1).1.secretCalls =
        (getCredentials run outcome).1.secretCalls + 1) := by
  constructor
  · intro credentials hres steps
    have hafter : (getCredentials run outcome).1.waiting = [] ∧
        (getCredentials run outcome).1.config.credentials = some credentials := by
      unfold getCredentials getCredentialsBegin at hres ⊢
      cases hc : run.config.credentials with
      | some c =>
        simp only [hc] at hres ⊢
        refine ⟨hidle, ?_⟩
        exact congrArg some (Except.ok.inj (Option.some.inj hres))
      | none =>
        simp only [hc, getCredentialsResume, hidle, List.nil_append, List.mem_singleton,
          if_true] at hres ⊢
        cases hs : getSecret run.config run.secretCalls outcome with
        | ok secret =>
          simp only [hs] at hres ⊢
          refine ⟨by simp, ?_⟩
          exact congrArg some (Except.ok.inj (Option.some.inj hres))
        | error e => simp [hs] at hres
    have := runSteps_of_stored _ credentials hafter.1 hafter.2 steps
    exact ⟨by rw [this.1], this.2⟩
  · intro error hres
    unfold getCredentials getCredentialsBegin at hres ⊢
    cases hc : run.config.credentials with
    | some c => simp [hc] at hres
    | none =>
      simp only [hc, getCredentialsResume, hidle, List.nil_append, List.mem_singleton,
        if_true] at hres ⊢
      cases hs : getSecret run.config run.secretCalls outcome with
      | ok secret => simp [hs] at hres
      | error e =>
        refine ⟨rfl, trivial, ?_⟩
        simp [hc]

/-- Witness of C27: the secret is fetched by the first call of a new object; two
later calls return the object of that call, and `getSecret` was called once. A
call whose secret is not found rejects and stores nothing. -/
theorem getCredentials_alone_caches_witness :
    newRun.waiting = [] ∧
    (getCredentials newRun (.value exampleSecret)).2 =
      some (.ok { identity := 0, value := exampleSecret }) ∧
    (runSteps (getCredentials newRun (.value exampleSecret)).1 [.call, .call]).1.secretCalls =
      1 ∧
    (∀ result ∈ (runSteps (getCredentials newRun (.value exampleSecret)).1 [.call, .call]).2,
      result = .ok { identity := 0, value := exampleSecret }) ∧
    (getCredentials newRun (.failure (some "ResourceNotFoundException") "")).1.config =
      newDatabaseConfig :=
  ⟨rfl, rfl,
   ((getCredentials_alone_caches newRun (.value exampleSecret) rfl).1
      { identity := 0, value := exampleSecret } rfl [.call, .call]).1,
   ((getCredentials_alone_caches newRun (.value exampleSecret) rfl).1
      { identity := 0, value := exampleSecret } rfl [.call, .call]).2,
   ((getCredentials_alone_caches newRun
      (.failure (some "ResourceNotFoundException") "") rfl).2
      "Secret rds!db-3758a324-12a2-4675-b5ff-b92acdf38483 não encontrado" rfl).1⟩

/-- C27 fails as stated: two calls of `getCredentials` made together on a new
object both find `credentials` null and both call `getSecret`; the first
resolves with the object of the first `getSecret` call, the second then
overwrites the field and resolves with another object, and a call made
afterwards returns that second object, not the one the first call returned. -/
theorem getCredentials_overlapping_calls :
    (runSteps newRun
      [.call, .call, .settle 0 (.value exampleSecret), .settle 1 (.value exampleSecret),
       .call]).2 =
      [.ok { identity := 0, value := exampleSecret },
       .ok { identity := 1, value := exampleSecret },
       .ok { identity := 1, value := exampleSecret }] ∧
    (runSteps newRun
      [.call, .call, .settle 0 (.value exampleSecret), .settle 1 (.value exampleSecret),
       .call]).1.secretCalls = 2 ∧
    (runSteps newRun [.call, .call, .settle 0 (.value exampleSecret)]).1.config.credentials =
      some { identity := 0, value := exampleSecret } ∧
    (runSteps newRun
      [.call, .call, .settle 0 (.value exampleSecret), .settle 1 (.value exampleSecret)]
      ).1.config.credentials = some { identity := 1, value := exampleSecret } := by
  refine ⟨by decide, by decide, by decide, by decide⟩

end DbConfig
